import Mathlib

set_option maxRecDepth 4000

/-
  Verification development for the cursor-audio-visualizer repository.

  The repository implements voice-activity-triggered audio segmentation.
  The decision core lives in src/app/services/AudioLoudnessMeterV3.ts:
  a polling tick (the setInterval body installed by startVolumeChecking)
  computes a normalized loudness value, runs loudnessDetection and then
  silenceDetection, and the two trigger methods slice the continuously
  recorded chunk buffer into preview and complete blobs.  The older
  variant src/app/services/AudioLoudnessMeter.ts is embedded as well
  (v1 definitions below) for the stop()/silence-completion behaviour.

  Timestamps are wall-clock milliseconds, modelled as Int.  Loudness is
  an exact rational (the source computes avg/255*100 on byte magnitudes).
  Chunk payloads are byte lists; blob assembly is list concatenation.
-/

/-- A chunk payload: the bytes delivered by one dataavailable event. -/
abbrev ChunkData := List Nat

/-- AudioLoudnessMeterV3.ts ExtendedBlob: a chunk plus the wall-clock
time (ms) at which its data collection ended. -/
structure ExtendedBlob where
  data : ChunkData
  dateTimeBlobEnded : Int
  deriving DecidableEq

/-- An assembled audio blob: its ordered binary parts and MIME type tag. -/
structure Blob where
  parts : List ChunkData
  type : String
  deriving DecidableEq

/-- Total byte size of an assembled blob. -/
def blobSize (b : Blob) : Nat := (b.parts.map List.length).sum

/-- audioUtils.ts calculateLoudness: given the analyser's frequency-bin
byte magnitudes (none models a null analyser handle), average them and
scale to the 0-100 range.  The source computes sum/len, then /255*100. -/
def calculateLoudness (analyserData : Option (List Nat)) : ℚ :=
  match analyserData with
  | none => 0
  | some dataArray =>
    let bufferLength : ℚ := dataArray.length
    let sum : ℚ := (dataArray.sum : Nat)
    let averageLoudness := sum / bufferLength
    (averageLoudness / 255) * 100

/-- Configuration of AudioLoudnessMeterV3 (field names from the source). -/
structure V3Config where
  loudnessThreshold : ℚ
  amountOfSilenceMsBeforeOnSilenceIsTriggered : Int
  initialRecordingDuration : Int
  msWorthOfAudioThatShouldBeIncludedBeforVolumeThresholdWasCrossed : Int
  currentMimeType : String
  numberOfChunksToCaptureAsHeaders : Nat
  deriving DecidableEq

/-- The default V3 configuration from the source. -/
def defaultV3Config : V3Config where
  loudnessThreshold := 6
  amountOfSilenceMsBeforeOnSilenceIsTriggered := 1000
  initialRecordingDuration := 1000
  msWorthOfAudioThatShouldBeIncludedBeforVolumeThresholdWasCrossed := 100
  currentMimeType := "audio/webm;codecs=opus"
  numberOfChunksToCaptureAsHeaders := 2

/-- Mutable session state of AudioLoudnessMeterV3: the instance fields
touched by the tick plus the closure variables of startVolumeChecking
(loudnessDetectedStartTime, silenceDetectedStartTime and
processingAudioThresholdExceededEvent live in that closure). -/
structure V3State where
  isRecording : Bool
  audioShouldStartAtThisDateTime : Int
  audioChunks : List ExtendedBlob
  headerChunks : List ChunkData
  loudnessDetectedStartTime : Option Int
  silenceDetectedStartTime : Option Int
  processingAudioThresholdExceededEvent : Bool
  deriving DecidableEq

/-- The state right after start()/startRecording(): recording is active,
both buffers are empty and no event is in flight. -/
def startedV3State : V3State where
  isRecording := true
  audioShouldStartAtThisDateTime := 0
  audioChunks := []
  headerChunks := []
  loudnessDetectedStartTime := none
  silenceDetectedStartTime := none
  processingAudioThresholdExceededEvent := false

/-- Preview window test used by triggerOnAudioAboveThresholdDetected:
chunk end-time within the closed window starting at audioStartPoint. -/
def chunkInPreviewWindow (audioStartPoint dur : Int) (c : ExtendedBlob) : Bool :=
  decide (audioStartPoint ≤ c.dateTimeBlobEnded) &&
  decide (c.dateTimeBlobEnded ≤ audioStartPoint + dur)

/-- Complete window test used by triggerOnSilenceDetected: chunk
end-time at or after audioStartPoint (an unbounded upper end). -/
def chunkInCompleteWindow (audioStartPoint : Int) (c : ExtendedBlob) : Bool :=
  decide (audioStartPoint ≤ c.dateTimeBlobEnded)

/-- AudioLoudnessMeterV3.triggerOnAudioAboveThresholdDetected: slice the
buffered chunks whose end time falls in the preview window, prepend the
header chunks and tag with the configured MIME type.  Returns none (no
callback) when not recording, the buffer is empty, or no chunk matches. -/
def triggerOnAudioAboveThresholdDetected (cfg : V3Config) (st : V3State) : Option Blob :=
  if !st.isRecording || st.audioChunks.isEmpty then none
  else
    let relevantChunks := st.audioChunks.filter
      (chunkInPreviewWindow st.audioShouldStartAtThisDateTime cfg.initialRecordingDuration)
    if relevantChunks.isEmpty then none
    else some ⟨st.headerChunks ++ relevantChunks.map ExtendedBlob.data, cfg.currentMimeType⟩

/-- AudioLoudnessMeterV3.triggerOnSilenceDetected: slice the buffered
chunks from audioStartPoint until now, prepend the header chunks and tag
with the configured MIME type.  Same silent no-op conditions. -/
def triggerOnSilenceDetected (cfg : V3Config) (st : V3State) : Option Blob :=
  if !st.isRecording || st.audioChunks.isEmpty then none
  else
    let relevantChunks := st.audioChunks.filter
      (chunkInCompleteWindow st.audioShouldStartAtThisDateTime)
    if relevantChunks.isEmpty then none
    else some ⟨st.headerChunks ++ relevantChunks.map ExtendedBlob.data, cfg.currentMimeType⟩

/-- AudioLoudnessMeterV3 collectAudioDataUntilInitialRecordingDuration:
once initialRecordingDuration ms have elapsed since the threshold
crossing at t0, clear the crossing time, block further threshold events
(processingAudioThresholdExceededEvent) and attempt the preview
emission. -/
def collectAudioDataUntilInitialRecordingDuration (cfg : V3Config) (now t0 : Int)
    (st : V3State) : V3State × Option Blob :=
  if cfg.initialRecordingDuration ≤ now - t0 then
    let st' := { st with loudnessDetectedStartTime := none,
                         processingAudioThresholdExceededEvent := true }
    (st', triggerOnAudioAboveThresholdDetected cfg st')
  else (st, none)

/-- AudioLoudnessMeterV3 loudnessDetection (the closure in
startVolumeChecking): ignore everything while an event is being
processed; while a crossing time is set, keep collecting toward the
preview duration; otherwise a sample at or above the threshold records
the crossing time and sets audioShouldStartAtThisDateTime to now minus
the pre-trigger lead-in. -/
def loudnessDetection (cfg : V3Config) (now : Int) (isLoudnessOverThreshold : Bool)
    (st : V3State) : V3State × Option Blob :=
  if st.processingAudioThresholdExceededEvent then (st, none)
  else
    match st.loudnessDetectedStartTime with
    | some t0 => collectAudioDataUntilInitialRecordingDuration cfg now t0 st
    | none =>
      if isLoudnessOverThreshold then
        ({ st with
            loudnessDetectedStartTime := some now,
            audioShouldStartAtThisDateTime :=
              now - cfg.msWorthOfAudioThatShouldBeIncludedBeforVolumeThresholdWasCrossed },
         none)
      else (st, none)

/-- AudioLoudnessMeterV3 silenceDetection: active only while an event is
being processed.  A sample at or above the threshold resets the silence
timer to not running (the source repeats that reset twice in a row; the
second block is a no-op and is folded in here); a below-threshold sample
starts the timer when it is not running; once the timer has run for
amountOfSilenceMsBeforeOnSilenceIsTriggered ms, the complete emission is
attempted and the event finishes. -/
def silenceDetection (cfg : V3Config) (now : Int) (isLoudnessOverThreshold : Bool)
    (st : V3State) : V3State × Option Blob :=
  if !st.processingAudioThresholdExceededEvent then (st, none)
  else
    let s0 := if isLoudnessOverThreshold then none else st.silenceDetectedStartTime
    let s1 := if !isLoudnessOverThreshold && s0.isNone then some now else s0
    match s1 with
    | some s =>
      if cfg.amountOfSilenceMsBeforeOnSilenceIsTriggered ≤ now - s then
        ({ st with silenceDetectedStartTime := none,
                   processingAudioThresholdExceededEvent := false },
         triggerOnSilenceDetected cfg st)
      else ({ st with silenceDetectedStartTime := some s }, none)
    | none => ({ st with silenceDetectedStartTime := none }, none)

/-- Observable output of one tick: the loudness value handed to
onPeriodicVolumeInformation (always delivered), and the blobs handed to
onAudioAboveThresholdDetected / onSilenceDetected when emitted. -/
structure TickOutput where
  volume : ℚ
  preview : Option Blob
  complete : Option Blob
  deriving DecidableEq

/-- One firing of the periodicVolumeCalc interval in AudioLoudnessMeterV3:
report the loudness, compare against the threshold, then run
loudnessDetection followed by silenceDetection. -/
def v3Tick (cfg : V3Config) (now : Int) (normalizedLoudness : ℚ) (st : V3State) :
    V3State × TickOutput :=
  let isLoudnessOverThreshold := decide (cfg.loudnessThreshold ≤ normalizedLoudness)
  let r1 := loudnessDetection cfg now isLoudnessOverThreshold st
  let r2 := silenceDetection cfg now isLoudnessOverThreshold r1.1
  (r2.1, ⟨normalizedLoudness, r1.2, r2.2⟩)

/-- A tick driven by raw analyser data, as in the source where the tick
itself calls calculateLoudness on the analyser handle. -/
def v3TickWithBins (cfg : V3Config) (now : Int) (analyserData : Option (List Nat))
    (st : V3State) : V3State × TickOutput :=
  v3Tick cfg now (calculateLoudness analyserData) st

/-- AudioLoudnessMeterV3 mediaRecorder.ondataavailable: a non-empty chunk
is stamped with the current time and appended to audioChunks; while fewer
than numberOfChunksToCaptureAsHeaders header chunks have been captured it
is additionally appended to headerChunks. -/
def v3OnChunk (cfg : V3Config) (st : V3State) (d : ChunkData) (now : Int) : V3State :=
  if 0 < d.length then
    { st with
        headerChunks :=
          if st.headerChunks.length < cfg.numberOfChunksToCaptureAsHeaders
          then st.headerChunks ++ [d] else st.headerChunks,
        audioChunks := st.audioChunks ++ [⟨d, now⟩] }
  else st

/-- An externally observable event driving the V3 session: a polling tick
(with its wall-clock time and computed loudness) or a chunk arrival. -/
inductive V3Event where
  | tick (now : Int) (normalizedLoudness : ℚ)
  | chunk (d : ChunkData) (now : Int)
  deriving DecidableEq

/-- Run the V3 session over a sequence of events, collecting the outputs
of every tick. -/
def v3Run (cfg : V3Config) : V3State → List V3Event → V3State × List TickOutput
  | st, [] => (st, [])
  | st, V3Event.tick now loud :: es =>
    let r := v3Tick cfg now loud st
    let rest := v3Run cfg r.1 es
    (rest.1, r.2 :: rest.2)
  | st, V3Event.chunk d now :: es => v3Run cfg (v3OnChunk cfg st d now) es

/-- Number of preview clips emitted in a list of tick outputs. -/
def previewCount (outs : List TickOutput) : Nat :=
  outs.countP (fun o => o.preview.isSome)

/-- Number of complete clips emitted in a list of tick outputs. -/
def completeCount (outs : List TickOutput) : Nat :=
  outs.countP (fun o => o.complete.isSome)

/-- A speech event is in flight: either the crossing time is set (still
collecting toward the preview duration) or the event is being processed
(awaiting silence).  This is state different from Idle. -/
def v3InFlight (st : V3State) : Prop :=
  st.loudnessDetectedStartTime ≠ none ∨ st.processingAudioThresholdExceededEvent = true

/-
  Embedding of the older variant src/app/services/AudioLoudnessMeter.ts
  (v1 prefixed definitions).  Its chunks carry no timestamps; the slicing
  methods estimate a chunk's time from its index, the buffer length and
  lastChunkTimestamp.  The preview emission is scheduled by an untracked
  setTimeout inside handleLoudnessDetected, guarded only by isRecording;
  the complete emission is the body of the timeout installed by
  resetSilenceDetection.
-/

/-- Configuration of AudioLoudnessMeter (field names from the source). -/
structure V1Config where
  loudnessThreshold : ℚ
  silenceDuration : Int
  initialRecordingDuration : Int
  preTriggerBufferDuration : Int
  currentMimeType : String
  deriving DecidableEq

/-- The default V1 configuration from the source. -/
def defaultV1Config : V1Config where
  loudnessThreshold := 10
  silenceDuration := 1000
  initialRecordingDuration := 1000
  preTriggerBufferDuration := 20
  currentMimeType := "audio/webm;codecs=opus"

/-- Session state of AudioLoudnessMeter: the instance fields plus the
closure variables of its startVolumeChecking
(lastLoudnessOverThreshold, silenceStartTime).  The volumeInterval and
silenceTimeout handles are modelled as pending flags: a cleared timer
can no longer fire. -/
structure V1State where
  isAnalyzing : Bool
  isRecording : Bool
  isInLoudnessEvent : Bool
  audioStartPoint : Int
  audioChunks : List ChunkData
  headerChunks : List ChunkData
  lastChunkTimestamp : Int
  hasCapturedHeaders : Bool
  lastLoudnessTime : Int
  volumeIntervalActive : Bool
  silenceTimeoutActive : Bool
  lastLoudnessOverThreshold : Bool
  silenceStartTime : Option Int
  deriving DecidableEq

/-- The field-initializer state of a fresh AudioLoudnessMeter instance. -/
def v1InitialState : V1State where
  isAnalyzing := false
  isRecording := false
  isInLoudnessEvent := false
  audioStartPoint := 0
  audioChunks := []
  headerChunks := []
  lastChunkTimestamp := 0
  hasCapturedHeaders := false
  lastLoudnessTime := 0
  volumeIntervalActive := false
  silenceTimeoutActive := false
  lastLoudnessOverThreshold := false
  silenceStartTime := none

/-- The index-based chunk time estimate used by AudioLoudnessMeter's
slicing: chunkTime = lastChunkTimestamp - (length - index - 1) * 100. -/
def v1ChunkTime (lastChunkTimestamp : Int) (length index : Nat) : Int :=
  lastChunkTimestamp - ((length : Int) - (index : Int) - 1) * 100

/-- AudioLoudnessMeter.sendInitialBlob: select chunks whose estimated
time lies in [audioStartPoint, audioStartPoint + initialRecordingDuration],
prepend headers, tag with the MIME type; none when not recording, the
buffer is empty or nothing matches. -/
def v1SendInitialBlob (cfg : V1Config) (st : V1State) : Option Blob :=
  if !st.isRecording || st.audioChunks.isEmpty then none
  else
    let n := st.audioChunks.length
    let relevantChunks := (st.audioChunks.enum.filter (fun p =>
      decide (st.audioStartPoint ≤ v1ChunkTime st.lastChunkTimestamp n p.1) &&
      decide (v1ChunkTime st.lastChunkTimestamp n p.1 ≤
        st.audioStartPoint + cfg.initialRecordingDuration))).map Prod.snd
    if relevantChunks.isEmpty then none
    else some ⟨st.headerChunks ++ relevantChunks, cfg.currentMimeType⟩

/-- AudioLoudnessMeter.sendCompleteBlob: select chunks whose estimated
time is at or after audioStartPoint, prepend headers, tag with the MIME
type; none when not recording, the buffer is empty or nothing matches. -/
def v1SendCompleteBlob (cfg : V1Config) (st : V1State) : Option Blob :=
  if !st.isRecording || st.audioChunks.isEmpty then none
  else
    let n := st.audioChunks.length
    let relevantChunks := (st.audioChunks.enum.filter (fun p =>
      decide (st.audioStartPoint ≤ v1ChunkTime st.lastChunkTimestamp n p.1))).map Prod.snd
    if relevantChunks.isEmpty then none
    else some ⟨st.headerChunks ++ relevantChunks, cfg.currentMimeType⟩

/-- AudioLoudnessMeter.startContinuousRecording: reset the main chunk
buffer, keep the header chunks once captured, mark recording active and
restart the chunk timestamp base. -/
def v1StartContinuousRecording (now : Int) (st : V1State) : V1State :=
  { st with
      audioChunks := [],
      headerChunks := if st.hasCapturedHeaders then st.headerChunks else [],
      isRecording := true,
      lastChunkTimestamp := now }

/-- AudioLoudnessMeter.stopRecording: stop the recorder. -/
def v1StopRecording (st : V1State) : V1State :=
  { st with isRecording := false }

/-- AudioLoudnessMeter.resetSilenceDetection (scheduling part): clear
any pending silence timeout and install a fresh one. -/
def v1ResetSilenceDetection (st : V1State) : V1State :=
  { st with silenceTimeoutActive := true }

/-- The body of the timeout installed by resetSilenceDetection, run when
the timer fires (a cleared timer does not fire): if still recording,
emit the complete blob, stop the recorder, clear the in-flight flag and
restart continuous recording (headers preserved once captured). -/
def v1SilenceTimeoutFire (cfg : V1Config) (now : Int) (st : V1State) :
    V1State × Option Blob :=
  if st.silenceTimeoutActive then
    let st0 := { st with silenceTimeoutActive := false }
    if st0.isRecording then
      let blob := v1SendCompleteBlob cfg st0
      let st1 := v1StopRecording st0
      let st2 := { st1 with isInLoudnessEvent := false }
      (v1StartContinuousRecording now st2, blob)
    else (st0, none)
  else (st, none)

/-- AudioLoudnessMeter.handleLoudnessDetected: ignored while an event is
already in flight; otherwise clear the pending silence timeout, set
audioStartPoint to now minus the pre-trigger buffer and mark the event
in flight.  (It also schedules the untracked preview timeout whose body
is v1InitialBlobTimerFire.) -/
def v1HandleLoudnessDetected (cfg : V1Config) (now : Int) (st : V1State) : V1State :=
  if st.isInLoudnessEvent then st
  else
    { st with
        silenceTimeoutActive := false,
        audioStartPoint := now - cfg.preTriggerBufferDuration,
        isInLoudnessEvent := true }

/-- The body of the untracked setTimeout scheduled by
handleLoudnessDetected: guarded by the still-recording flag, it emits
the initial (preview) blob and touches no state. -/
def v1InitialBlobTimerFire (cfg : V1Config) (st : V1State) : Option Blob :=
  if st.isRecording then v1SendInitialBlob cfg st else none

/-- One firing of AudioLoudnessMeter's volume-checking interval (a
cleared interval does not fire): report the loudness, run the rising-edge
loudness detection, the silence timing logic, and remember the current
threshold comparison. -/
def v1VolumeTick (cfg : V1Config) (now : Int) (normalizedLoudness : ℚ) (st : V1State) :
    V1State × Option ℚ :=
  if !st.volumeIntervalActive then (st, none)
  else
    let isLoudnessOverThreshold := decide (cfg.loudnessThreshold ≤ normalizedLoudness)
    let st1 :=
      if isLoudnessOverThreshold && !st.lastLoudnessOverThreshold then
        { v1HandleLoudnessDetected cfg now st with silenceStartTime := none }
      else st
    let st2 :=
      if !isLoudnessOverThreshold && st1.lastLoudnessOverThreshold then
        { st1 with silenceStartTime := some now }
      else
        match st1.silenceStartTime with
        | some s =>
          if !isLoudnessOverThreshold then
            if cfg.silenceDuration ≤ now - s then
              { v1ResetSilenceDetection st1 with silenceStartTime := none }
            else st1
          else st1
        | none => st1
    ({ st2 with lastLoudnessOverThreshold := isLoudnessOverThreshold },
     some normalizedLoudness)

/-- AudioLoudnessMeter.stop(): a no-op unless analyzing; otherwise clear
both tracked timers, stop the recorder and reset every session field to
its field-initializer value. -/
def v1Stop (st : V1State) : V1State :=
  if !st.isAnalyzing then st
  else
    { st with
        volumeIntervalActive := false,
        silenceTimeoutActive := false,
        isRecording := false,
        isAnalyzing := false,
        isInLoudnessEvent := false,
        audioStartPoint := 0,
        audioChunks := [],
        headerChunks := [],
        lastChunkTimestamp := 0,
        hasCapturedHeaders := false,
        lastLoudnessTime := 0 }

/-- AudioLoudnessMeter.start(): a warning no-op while already analyzing;
otherwise install the volume-checking interval (re-initializing its
closure variables) and start continuous recording. -/
def v1Start (now : Int) (st : V1State) : V1State :=
  if st.isAnalyzing then st
  else
    let st1 := { st with
                  volumeIntervalActive := true,
                  lastLoudnessOverThreshold := false,
                  silenceStartTime := none }
    let st2 := v1StartContinuousRecording now st1
    { st2 with isAnalyzing := true }

/-
  Helper lemmas about the V3 components.
-/

/-- The state set by collectAudioDataUntilInitialRecordingDuration right
before the preview emission is attempted: the crossing time is cleared
and further threshold events are blocked. -/
def v3Locked (st : V3State) : V3State :=
  { st with loudnessDetectedStartTime := none,
            processingAudioThresholdExceededEvent := true }

/-- The state set by loudnessDetection when a sample at or above the
threshold is recognized as a new crossing. -/
def v3Crossed (cfg : V3Config) (now : Int) (st : V3State) : V3State :=
  { st with
      loudnessDetectedStartTime := some now,
      audioShouldStartAtThisDateTime :=
        now - cfg.msWorthOfAudioThatShouldBeIncludedBeforVolumeThresholdWasCrossed }

/-- Concrete state about to emit a preview clip. -/
def c4PreviewState : V3State :=
  ⟨true, 0, [⟨[5], 50⟩], [[9]], some 0, none, false⟩

/-- Concrete state about to emit a complete clip. -/
def c4CompleteState : V3State :=
  ⟨true, 0, [⟨[5], 50⟩], [[9]], none, some 0, true⟩

/-- The blob both concrete states assemble. -/
def c4Blob : Blob := ⟨[[9], [5]], "audio/webm;codecs=opus"⟩

/-- Concrete state whose header chunk also sits in the buffer window. -/
def c9State : V3State :=
  ⟨true, 0, [⟨[3], 10⟩, ⟨[4], 20⟩], [[3], [4]], none, none, false⟩

/-- The blob emitted from c9State. -/
def c9Blob : Blob := ⟨[[3], [4], [3], [4]], "audio/webm;codecs=opus"⟩

/-- Concrete collecting state with an empty buffer (preview will skip). -/
def c10EmptyState : V3State := ⟨true, -100, [], [], some 0, none, false⟩

/-- Concrete awaiting-silence state that will emit the complete clip. -/
def c10SilenceState : V3State := ⟨true, 0, [⟨[5], 50⟩], [[9]], none, some 0, true⟩

/-- 1 when a tick output carries a preview blob. -/
def pOne (o : TickOutput) : Nat := if o.preview.isSome then 1 else 0

/-- 1 when a tick output carries a complete blob. -/
def cOne (o : TickOutput) : Nat := if o.complete.isSome then 1 else 0

/-- 1 while an event is being processed (awaiting silence). -/
def eventFlag (st : V3State) : Nat :=
  if st.processingAudioThresholdExceededEvent then 1 else 0

/-- Counting invariant for C1: the number of previews emitted so far
never exceeds the completes plus the in-flight flag, and whenever the
flag accounts for an emitted preview, the buffer still holds a chunk at
or after the window start (so the eventual complete emission cannot be
skipped). -/
def c1Inv (st : V3State) (p c : Nat) : Prop :=
  p ≤ c + eventFlag st ∧
  (st.processingAudioThresholdExceededEvent = true → p = c + 1 →
    st.isRecording = true ∧
    ∃ ch ∈ st.audioChunks, st.audioShouldStartAtThisDateTime ≤ ch.dateTimeBlobEnded)

/-- Concrete in-flight state for the C1 witness. -/
def c1State : V3State := ⟨true, 7, [], [], none, none, true⟩

/-- An event compatible with an ongoing preview collection that started
at t0: any chunk arrival, or a tick strictly before the preview duration
has elapsed. -/
def eventBeforeDeadline (t0 dur : Int) : V3Event → Bool
  | V3Event.tick now _ => decide (now - t0 < dur)
  | V3Event.chunk _ _ => true

/-- Collection-phase events for the C2 witness run. -/
def c2Mid : List V3Event := [V3Event.chunk [1] 500]

/-- The state reached after the C2 witness collection phase. -/
def c2StF : V3State :=
  (v3Run defaultV3Config (v3Tick defaultV3Config 0 50 startedV3State).1 c2Mid).1

/-- The C3 scenario: a chunk arrives and a tick fires every 100 ms from
t=0 to t=2200; loudness is 50 (above the default threshold 6) up to
t=1100 and 0 from t=1200 on, so the crossing is at t=0 and the drop at
t=1200. -/
def c3Events : List V3Event :=
  (List.range 23).foldr (fun i acc =>
    V3Event.chunk [i] (100 * (i : Int)) ::
    V3Event.tick (100 * (i : Int)) (if i ≤ 11 then 50 else 0) :: acc) []

/-- The chunks captured during the C3 scenario. -/
def c3AllChunks : List ExtendedBlob :=
  (List.range 23).map (fun i => ⟨[i], 100 * (i : Int)⟩)

/-- The header chunks captured during the C3 scenario. -/
def c3Headers : List ChunkData := [[0], [1]]

/-- A concrete mid-event V1 state whose silence timeout is pending. -/
def c5State : V1State :=
  { v1InitialState with
      isAnalyzing := true
      isRecording := true
      isInLoudnessEvent := true
      audioStartPoint := 500
      audioChunks := [[7]]
      headerChunks := [[1], [2]]
      lastChunkTimestamp := 600
      hasCapturedHeaders := true
      silenceTimeoutActive := true }

theorem triggerOnAudioAboveThresholdDetected_def (cfg : V3Config) (st : V3State) :
    triggerOnAudioAboveThresholdDetected cfg st =
      if (!st.isRecording || st.audioChunks.isEmpty) = true then none
      else if (st.audioChunks.filter (chunkInPreviewWindow st.audioShouldStartAtThisDateTime
          cfg.initialRecordingDuration)).isEmpty = true then none
      else some ⟨st.headerChunks ++ (st.audioChunks.filter (chunkInPreviewWindow
              st.audioShouldStartAtThisDateTime cfg.initialRecordingDuration)).map
              ExtendedBlob.data,
            cfg.currentMimeType⟩ := rfl

theorem triggerOnSilenceDetected_def (cfg : V3Config) (st : V3State) :
    triggerOnSilenceDetected cfg st =
      if (!st.isRecording || st.audioChunks.isEmpty) = true then none
      else if (st.audioChunks.filter
          (chunkInCompleteWindow st.audioShouldStartAtThisDateTime)).isEmpty = true then none
      else some ⟨st.headerChunks ++ (st.audioChunks.filter
              (chunkInCompleteWindow st.audioShouldStartAtThisDateTime)).map ExtendedBlob.data,
            cfg.currentMimeType⟩ := rfl

theorem triggerOnAudioAboveThresholdDetected_eq_some {cfg : V3Config} {st : V3State} {b : Blob}
    (h : triggerOnAudioAboveThresholdDetected cfg st = some b) :
    st.isRecording = true ∧
    st.audioChunks.filter (chunkInPreviewWindow st.audioShouldStartAtThisDateTime
      cfg.initialRecordingDuration) ≠ [] ∧
    b = ⟨st.headerChunks ++ (st.audioChunks.filter (chunkInPreviewWindow
            st.audioShouldStartAtThisDateTime cfg.initialRecordingDuration)).map
            ExtendedBlob.data,
         cfg.currentMimeType⟩ := by
  rw [triggerOnAudioAboveThresholdDetected_def] at h
  split at h
  · exact Option.noConfusion h
  · next hguard =>
    split at h
    · exact Option.noConfusion h
    · next hsel =>
      have hg : st.isRecording = true ∧ st.audioChunks.isEmpty = false := by
        rcases hr : st.isRecording <;> rcases he : st.audioChunks.isEmpty <;>
          simp [hr, he] at hguard ⊢
      refine ⟨hg.1, ?_, (Option.some.injEq _ _ ▸ h).symm⟩
      intro hnil
      exact hsel (by simp [hnil])

theorem triggerOnAudioAboveThresholdDetected_isSome {cfg : V3Config} {st : V3State}
    (hr : st.isRecording = true)
    (hne : st.audioChunks.filter (chunkInPreviewWindow st.audioShouldStartAtThisDateTime
      cfg.initialRecordingDuration) ≠ []) :
    triggerOnAudioAboveThresholdDetected cfg st =
      some ⟨st.headerChunks ++ (st.audioChunks.filter (chunkInPreviewWindow
              st.audioShouldStartAtThisDateTime cfg.initialRecordingDuration)).map
              ExtendedBlob.data,
            cfg.currentMimeType⟩ := by
  have hbuf : st.audioChunks ≠ [] := by
    intro hnil
    exact hne (by simp [hnil])
  rw [triggerOnAudioAboveThresholdDetected_def]
  rw [if_neg (by simp [hr, List.isEmpty_iff, hbuf]), if_neg (by simp [List.isEmpty_iff, hne])]

theorem triggerOnAudioAboveThresholdDetected_none_of_empty {cfg : V3Config} {st : V3State}
    (h : st.audioChunks.filter (chunkInPreviewWindow st.audioShouldStartAtThisDateTime
      cfg.initialRecordingDuration) = []) :
    triggerOnAudioAboveThresholdDetected cfg st = none := by
  rw [triggerOnAudioAboveThresholdDetected_def]
  split
  · rfl
  · rw [if_pos (by simp [List.isEmpty_iff, h])]

theorem triggerOnSilenceDetected_eq_some {cfg : V3Config} {st : V3State} {b : Blob}
    (h : triggerOnSilenceDetected cfg st = some b) :
    st.isRecording = true ∧
    st.audioChunks.filter (chunkInCompleteWindow st.audioShouldStartAtThisDateTime) ≠ [] ∧
    b = ⟨st.headerChunks ++ (st.audioChunks.filter
            (chunkInCompleteWindow st.audioShouldStartAtThisDateTime)).map ExtendedBlob.data,
         cfg.currentMimeType⟩ := by
  rw [triggerOnSilenceDetected_def] at h
  split at h
  · exact Option.noConfusion h
  · next hguard =>
    split at h
    · exact Option.noConfusion h
    · next hsel =>
      have hg : st.isRecording = true ∧ st.audioChunks.isEmpty = false := by
        rcases hr : st.isRecording <;> rcases he : st.audioChunks.isEmpty <;>
          simp [hr, he] at hguard ⊢
      refine ⟨hg.1, ?_, (Option.some.injEq _ _ ▸ h).symm⟩
      intro hnil
      exact hsel (by simp [hnil])

theorem triggerOnSilenceDetected_isSome {cfg : V3Config} {st : V3State}
    (hr : st.isRecording = true)
    (hne : st.audioChunks.filter (chunkInCompleteWindow st.audioShouldStartAtThisDateTime) ≠ []) :
    triggerOnSilenceDetected cfg st =
      some ⟨st.headerChunks ++ (st.audioChunks.filter
              (chunkInCompleteWindow st.audioShouldStartAtThisDateTime)).map ExtendedBlob.data,
            cfg.currentMimeType⟩ := by
  have hbuf : st.audioChunks ≠ [] := by
    intro hnil
    exact hne (by simp [hnil])
  rw [triggerOnSilenceDetected_def]
  rw [if_neg (by simp [hr, List.isEmpty_iff, hbuf]), if_neg (by simp [List.isEmpty_iff, hne])]

theorem triggerOnSilenceDetected_none_of_empty {cfg : V3Config} {st : V3State}
    (h : st.audioChunks.filter (chunkInCompleteWindow st.audioShouldStartAtThisDateTime) = []) :
    triggerOnSilenceDetected cfg st = none := by
  rw [triggerOnSilenceDetected_def]
  split
  · rfl
  · rw [if_pos (by simp [List.isEmpty_iff, h])]

/-- A chunk in the preview window is in the complete window. -/
theorem chunkInCompleteWindow_of_preview {w dur : Int} {c : ExtendedBlob}
    (h : chunkInPreviewWindow w dur c = true) : chunkInCompleteWindow w c = true := by
  unfold chunkInPreviewWindow at h
  unfold chunkInCompleteWindow
  simp only [Bool.and_eq_true, decide_eq_true_eq] at h ⊢
  exact h.1

theorem loudnessDetection_processing_true {cfg : V3Config} {now : Int} {b : Bool}
    {st : V3State} (h : st.processingAudioThresholdExceededEvent = true) :
    loudnessDetection cfg now b st = (st, none) := by
  simp [loudnessDetection, h]

theorem loudnessDetection_collect_done {cfg : V3Config} {now : Int} {b : Bool}
    {st : V3State} {t0 : Int}
    (hp : st.processingAudioThresholdExceededEvent = false)
    (hl : st.loudnessDetectedStartTime = some t0)
    (hd : cfg.initialRecordingDuration ≤ now - t0) :
    loudnessDetection cfg now b st =
      (v3Locked st, triggerOnAudioAboveThresholdDetected cfg (v3Locked st)) := by
  simp [loudnessDetection, collectAudioDataUntilInitialRecordingDuration, hp, hl, hd, v3Locked]

theorem loudnessDetection_collect_wait {cfg : V3Config} {now : Int} {b : Bool}
    {st : V3State} {t0 : Int}
    (hp : st.processingAudioThresholdExceededEvent = false)
    (hl : st.loudnessDetectedStartTime = some t0)
    (hd : ¬ cfg.initialRecordingDuration ≤ now - t0) :
    loudnessDetection cfg now b st = (st, none) := by
  simp [loudnessDetection, collectAudioDataUntilInitialRecordingDuration, hp, hl, hd]

theorem loudnessDetection_cross {cfg : V3Config} {now : Int} {st : V3State}
    (hp : st.processingAudioThresholdExceededEvent = false)
    (hl : st.loudnessDetectedStartTime = none) :
    loudnessDetection cfg now true st = (v3Crossed cfg now st, none) := by
  simp [loudnessDetection, hp, hl, v3Crossed]

theorem loudnessDetection_idle {cfg : V3Config} {now : Int} {st : V3State}
    (hp : st.processingAudioThresholdExceededEvent = false)
    (hl : st.loudnessDetectedStartTime = none) :
    loudnessDetection cfg now false st = (st, none) := by
  simp [loudnessDetection, hp, hl]

/-- Full case analysis of loudnessDetection. -/
theorem loudnessDetection_cases (cfg : V3Config) (now : Int) (b : Bool) (st : V3State) :
    loudnessDetection cfg now b st = (st, none) ∨
    (st.processingAudioThresholdExceededEvent = false ∧ ∃ t0,
      st.loudnessDetectedStartTime = some t0 ∧
      cfg.initialRecordingDuration ≤ now - t0 ∧
      loudnessDetection cfg now b st =
        (v3Locked st, triggerOnAudioAboveThresholdDetected cfg (v3Locked st))) ∨
    (st.processingAudioThresholdExceededEvent = false ∧
      st.loudnessDetectedStartTime = none ∧ b = true ∧
      loudnessDetection cfg now b st = (v3Crossed cfg now st, none)) := by
  by_cases hp : st.processingAudioThresholdExceededEvent = true
  · exact Or.inl (loudnessDetection_processing_true hp)
  · have hp' : st.processingAudioThresholdExceededEvent = false := by
      simpa using hp
    cases hl : st.loudnessDetectedStartTime with
    | none =>
      cases hb : b with
      | false => exact Or.inl (loudnessDetection_idle hp' hl)
      | true => exact Or.inr (Or.inr ⟨hp', rfl, rfl, loudnessDetection_cross hp' hl⟩)
    | some t0 =>
      by_cases hd : cfg.initialRecordingDuration ≤ now - t0
      · exact Or.inr (Or.inl ⟨hp', t0, rfl, hd, loudnessDetection_collect_done hp' hl hd⟩)
      · exact Or.inl (loudnessDetection_collect_wait hp' hl hd)

theorem silenceDetection_inactive {cfg : V3Config} {now : Int} {b : Bool} {st : V3State}
    (h : st.processingAudioThresholdExceededEvent = false) :
    silenceDetection cfg now b st = (st, none) := by
  simp [silenceDetection, h]

/-- Full case analysis of silenceDetection while an event is processed:
either the silence duration is reached, emission is attempted and the
event finishes, or only the silence timer field changes. -/
theorem silenceDetection_cases (cfg : V3Config) (now : Int) (b : Bool) (st : V3State)
    (h : st.processingAudioThresholdExceededEvent = true) :
    (silenceDetection cfg now b st =
      ({ st with silenceDetectedStartTime := none,
                 processingAudioThresholdExceededEvent := false },
       triggerOnSilenceDetected cfg st)) ∨
    (∃ s', silenceDetection cfg now b st =
      ({ st with silenceDetectedStartTime := s' }, none)) := by
  cases hb : b with
  | true => exact Or.inr ⟨none, by simp [silenceDetection, h]⟩
  | false =>
    cases hs : st.silenceDetectedStartTime with
    | none =>
      by_cases hd : cfg.amountOfSilenceMsBeforeOnSilenceIsTriggered ≤ (0 : Int)
      · exact Or.inl (by simp [silenceDetection, h, hs, sub_self, hd])
      · exact Or.inr ⟨some now, by simp [silenceDetection, h, hs, sub_self, hd]⟩
    | some s =>
      by_cases hd : cfg.amountOfSilenceMsBeforeOnSilenceIsTriggered ≤ now - s
      · exact Or.inl (by simp [silenceDetection, h, hs, hd])
      · exact Or.inr ⟨some s, by simp [silenceDetection, h, hs, hd]⟩

/-- silenceDetection never changes the recording flag, the buffers, the
window start or the crossing time. -/
theorem silenceDetection_preserves (cfg : V3Config) (now : Int) (b : Bool) (st : V3State) :
    (silenceDetection cfg now b st).1.isRecording = st.isRecording ∧
    (silenceDetection cfg now b st).1.audioChunks = st.audioChunks ∧
    (silenceDetection cfg now b st).1.headerChunks = st.headerChunks ∧
    (silenceDetection cfg now b st).1.audioShouldStartAtThisDateTime =
      st.audioShouldStartAtThisDateTime ∧
    (silenceDetection cfg now b st).1.loudnessDetectedStartTime =
      st.loudnessDetectedStartTime := by
  rcases hp : st.processingAudioThresholdExceededEvent
  · rw [silenceDetection_inactive hp]
    exact ⟨rfl, rfl, rfl, rfl, rfl⟩
  · rcases silenceDetection_cases cfg now b st hp with heq | ⟨s', heq⟩ <;>
      rw [heq] <;> exact ⟨rfl, rfl, rfl, rfl, rfl⟩

/-- loudnessDetection never changes the recording flag or the buffers. -/
theorem loudnessDetection_preserves (cfg : V3Config) (now : Int) (b : Bool) (st : V3State) :
    (loudnessDetection cfg now b st).1.isRecording = st.isRecording ∧
    (loudnessDetection cfg now b st).1.audioChunks = st.audioChunks ∧
    (loudnessDetection cfg now b st).1.headerChunks = st.headerChunks ∧
    (loudnessDetection cfg now b st).1.silenceDetectedStartTime =
      st.silenceDetectedStartTime := by
  rcases loudnessDetection_cases cfg now b st with heq | ⟨_, t0, _, _, heq⟩ | ⟨_, _, _, heq⟩ <;>
    rw [heq] <;> exact ⟨rfl, rfl, rfl, rfl⟩

/-- The components of a tick. -/
theorem v3Tick_def (cfg : V3Config) (now : Int) (L : ℚ) (st : V3State) :
    v3Tick cfg now L st =
      ((silenceDetection cfg now (decide (cfg.loudnessThreshold ≤ L))
          (loudnessDetection cfg now (decide (cfg.loudnessThreshold ≤ L)) st).1).1,
       ⟨L, (loudnessDetection cfg now (decide (cfg.loudnessThreshold ≤ L)) st).2,
          (silenceDetection cfg now (decide (cfg.loudnessThreshold ≤ L))
            (loudnessDetection cfg now (decide (cfg.loudnessThreshold ≤ L)) st).1).2⟩) := rfl

theorem silenceDetection_fresh {cfg : V3Config} {now : Int} {b : Bool} {st : V3State}
    (hp : st.processingAudioThresholdExceededEvent = true)
    (hs : st.silenceDetectedStartTime = none)
    (hd : 0 < cfg.amountOfSilenceMsBeforeOnSilenceIsTriggered) :
    (silenceDetection cfg now b st).2 = none ∧
    (silenceDetection cfg now b st).1.processingAudioThresholdExceededEvent = true ∧
    (silenceDetection cfg now b st).1.loudnessDetectedStartTime =
      st.loudnessDetectedStartTime := by
  cases b with
  | true => refine ⟨?_, ?_, ?_⟩ <;> simp [silenceDetection, hp, hs]
  | false =>
    refine ⟨?_, ?_, ?_⟩ <;>
      simp [silenceDetection, hp, hs, sub_self, not_le.mpr hd]

theorem silenceDetection_fires {cfg : V3Config} {now : Int} {st : V3State} {s : Int}
    (hp : st.processingAudioThresholdExceededEvent = true)
    (hs : st.silenceDetectedStartTime = some s)
    (hd : cfg.amountOfSilenceMsBeforeOnSilenceIsTriggered ≤ now - s) :
    silenceDetection cfg now false st =
      ({ st with silenceDetectedStartTime := none,
                 processingAudioThresholdExceededEvent := false },
       triggerOnSilenceDetected cfg st) := by
  simp [silenceDetection, hp, hs, hd]

/-- C8: on every sampler tick the reported loudness is the average of the
frequency-bin byte magnitudes divided by 255 and times 100 (hence within
0-100 whenever the bins are bytes), a missing analysis handle yields 0,
and the periodic volume output carries exactly this value on every tick,
whatever the session state. -/
theorem c8_loudness_normalization :
    calculateLoudness none = 0 ∧
    (∀ bins : List Nat, bins ≠ [] → (∀ x ∈ bins, x ≤ 255) →
      0 ≤ calculateLoudness (some bins) ∧ calculateLoudness (some bins) ≤ 100) ∧
    (∀ (cfg : V3Config) (now : Int) (analyserData : Option (List Nat)) (st : V3State),
      (v3TickWithBins cfg now analyserData st).2.volume = calculateLoudness analyserData) := by
  refine ⟨rfl, ?_, fun cfg now ad st => rfl⟩
  intro bins hne hb
  have hlen : 0 < (bins.length : ℚ) := by
    have h0 : 0 < bins.length := List.length_pos.mpr hne
    exact_mod_cast h0
  have hsum : (bins.sum : ℚ) ≤ 255 * bins.length := by
    have h1 : bins.sum ≤ bins.length * 255 := by
      calc bins.sum ≤ bins.length • 255 := List.sum_le_card_nsmul bins 255 hb
        _ = bins.length * 255 := smul_eq_mul _
    calc (bins.sum : ℚ) ≤ ((bins.length * 255 : Nat) : ℚ) := by exact_mod_cast h1
      _ = 255 * bins.length := by push_cast; ring
  constructor
  · show 0 ≤ ((bins.sum : Nat) : ℚ) / (bins.length : ℚ) / 255 * 100
    positivity
  · show ((bins.sum : Nat) : ℚ) / (bins.length : ℚ) / 255 * 100 ≤ 100
    have havg : (bins.sum : ℚ) / (bins.length : ℚ) ≤ 255 := by
      rw [div_le_iff₀ hlen]
      linarith
    have h2 : (bins.sum : ℚ) / (bins.length : ℚ) / 255 ≤ 1 := by
      rw [div_le_one (by norm_num : (0 : ℚ) < 255)]
      exact havg
    linarith

/-- Witness for C8 at concrete bins. -/
theorem c8_witness :
    (0 : ℚ) ≤ calculateLoudness (some [51, 102]) ∧
    calculateLoudness (some [51, 102]) ≤ 100 :=
  c8_loudness_normalization.2.1 [51, 102] (by decide) (by decide)

/-- C4: every blob a tick emits equals the header chunk sequence followed
by exactly the buffered chunks passing the window test (end-time within
the bounded preview window, or at or after the window start for the
complete clip), in original buffer order (a sublist of the buffer), and
is tagged with the configured MIME type. -/
theorem c4_blob_assembly (cfg : V3Config) (now : Int) (L : ℚ) (st : V3State) :
    (∀ b : Blob, (v3Tick cfg now L st).2.preview = some b →
      b.parts = st.headerChunks ++ (st.audioChunks.filter (chunkInPreviewWindow
          st.audioShouldStartAtThisDateTime cfg.initialRecordingDuration)).map
          ExtendedBlob.data ∧
      b.type = cfg.currentMimeType ∧
      ((st.audioChunks.filter (chunkInPreviewWindow st.audioShouldStartAtThisDateTime
          cfg.initialRecordingDuration)).map ExtendedBlob.data).Sublist
        (st.audioChunks.map ExtendedBlob.data)) ∧
    (∀ b : Blob, (v3Tick cfg now L st).2.complete = some b →
      b.parts = st.headerChunks ++ (st.audioChunks.filter
          (chunkInCompleteWindow st.audioShouldStartAtThisDateTime)).map ExtendedBlob.data ∧
      b.type = cfg.currentMimeType ∧
      ((st.audioChunks.filter (chunkInCompleteWindow st.audioShouldStartAtThisDateTime)).map
          ExtendedBlob.data).Sublist (st.audioChunks.map ExtendedBlob.data)) := by
  have hsubP : ((st.audioChunks.filter (chunkInPreviewWindow st.audioShouldStartAtThisDateTime
      cfg.initialRecordingDuration)).map ExtendedBlob.data).Sublist
      (st.audioChunks.map ExtendedBlob.data) :=
    List.Sublist.map _ (List.filter_sublist _)
  have hsubC : ((st.audioChunks.filter
      (chunkInCompleteWindow st.audioShouldStartAtThisDateTime)).map ExtendedBlob.data).Sublist
      (st.audioChunks.map ExtendedBlob.data) :=
    List.Sublist.map _ (List.filter_sublist _)
  rw [v3Tick_def]
  constructor
  · intro b hb
    simp only at hb
    rcases loudnessDetection_cases cfg now (decide (cfg.loudnessThreshold ≤ L)) st with
      heq | ⟨hp, t0, hl, hd, heq⟩ | ⟨hp, hl, hbt, heq⟩
    · rw [heq] at hb
      exact Option.noConfusion hb
    · rw [heq] at hb
      obtain ⟨-, -, hbeq⟩ := triggerOnAudioAboveThresholdDetected_eq_some hb
      subst hbeq
      exact ⟨by simp [v3Locked], by simp [v3Locked], hsubP⟩
    · rw [heq] at hb
      exact Option.noConfusion hb
  · intro b hb
    simp only at hb
    rcases loudnessDetection_cases cfg now (decide (cfg.loudnessThreshold ≤ L)) st with
      heq | ⟨hp, t0, hl, hd, heq⟩ | ⟨hp, hl, hbt, heq⟩
    · rw [heq] at hb
      simp only at hb
      rcases hps : st.processingAudioThresholdExceededEvent with _ | _
      · rw [silenceDetection_inactive hps] at hb
        exact Option.noConfusion hb
      · rcases silenceDetection_cases cfg now (decide (cfg.loudnessThreshold ≤ L)) st hps with
          hsq | ⟨s', hsq⟩
        · rw [hsq] at hb
          obtain ⟨-, -, hbeq⟩ := triggerOnSilenceDetected_eq_some hb
          subst hbeq
          exact ⟨rfl, rfl, hsubC⟩
        · rw [hsq] at hb
          exact Option.noConfusion hb
    · rw [heq] at hb
      simp only at hb
      have hps : (v3Locked st).processingAudioThresholdExceededEvent = true := rfl
      rcases silenceDetection_cases cfg now (decide (cfg.loudnessThreshold ≤ L))
          (v3Locked st) hps with hsq | ⟨s', hsq⟩
      · rw [hsq] at hb
        obtain ⟨-, -, hbeq⟩ := triggerOnSilenceDetected_eq_some hb
        subst hbeq
        exact ⟨by simp [v3Locked], by simp [v3Locked], hsubC⟩
      · rw [hsq] at hb
        exact Option.noConfusion hb
    · rw [heq] at hb
      simp only at hb
      have hps : (v3Crossed cfg now st).processingAudioThresholdExceededEvent = false := hp
      rw [silenceDetection_inactive hps] at hb
      exact Option.noConfusion hb

/-- Witness for C4 at concrete emitting ticks. -/
theorem c4_witness :
    (c4Blob.parts = c4PreviewState.headerChunks ++
        (c4PreviewState.audioChunks.filter (chunkInPreviewWindow
          c4PreviewState.audioShouldStartAtThisDateTime
          defaultV3Config.initialRecordingDuration)).map ExtendedBlob.data ∧
      c4Blob.type = defaultV3Config.currentMimeType ∧
      ((c4PreviewState.audioChunks.filter (chunkInPreviewWindow
          c4PreviewState.audioShouldStartAtThisDateTime
          defaultV3Config.initialRecordingDuration)).map ExtendedBlob.data).Sublist
        (c4PreviewState.audioChunks.map ExtendedBlob.data)) ∧
    (c4Blob.parts = c4CompleteState.headerChunks ++
        (c4CompleteState.audioChunks.filter (chunkInCompleteWindow
          c4CompleteState.audioShouldStartAtThisDateTime)).map ExtendedBlob.data ∧
      c4Blob.type = defaultV3Config.currentMimeType ∧
      ((c4CompleteState.audioChunks.filter (chunkInCompleteWindow
          c4CompleteState.audioShouldStartAtThisDateTime)).map ExtendedBlob.data).Sublist
        (c4CompleteState.audioChunks.map ExtendedBlob.data)) :=
  ⟨(c4_blob_assembly defaultV3Config 1000 0 c4PreviewState).1 c4Blob (by decide),
   (c4_blob_assembly defaultV3Config 1000 0 c4CompleteState).2 c4Blob (by decide)⟩

/-- C6: a window whose chunk selection is empty (in particular an empty
buffer) makes emission a silent no-op: the trigger produces no blob, the
tick delivers neither the preview nor the complete callback, and no tick
ever modifies the chunk buffer, the header set or the recording flag (the
embedded triggers are pure readers, so no error and no state change can
come from an attempted emission). -/
theorem c6_empty_selection_noop (cfg : V3Config) (now : Int) (L : ℚ) (st : V3State) :
    (st.audioChunks.filter (chunkInPreviewWindow st.audioShouldStartAtThisDateTime
        cfg.initialRecordingDuration) = [] →
      triggerOnAudioAboveThresholdDetected cfg st = none) ∧
    (st.audioChunks.filter (chunkInCompleteWindow st.audioShouldStartAtThisDateTime) = [] →
      triggerOnSilenceDetected cfg st = none) ∧
    (st.audioChunks.filter (chunkInPreviewWindow st.audioShouldStartAtThisDateTime
        cfg.initialRecordingDuration) = [] →
      (v3Tick cfg now L st).2.preview = none) ∧
    (st.audioChunks.filter (chunkInCompleteWindow st.audioShouldStartAtThisDateTime) = [] →
      (v3Tick cfg now L st).2.complete = none) ∧
    ((v3Tick cfg now L st).1.audioChunks = st.audioChunks ∧
     (v3Tick cfg now L st).1.headerChunks = st.headerChunks ∧
     (v3Tick cfg now L st).1.isRecording = st.isRecording) := by
  refine ⟨?_, ?_, ?_, ?_, ?_⟩
  · exact triggerOnAudioAboveThresholdDetected_none_of_empty
  · exact triggerOnSilenceDetected_none_of_empty
  · intro hsel
    rw [v3Tick_def]
    simp only
    rcases loudnessDetection_cases cfg now (decide (cfg.loudnessThreshold ≤ L)) st with
      heq | ⟨hp, t0, hl, hd, heq⟩ | ⟨hp, hl, hbt, heq⟩
    · rw [heq]
    · rw [heq]
      exact triggerOnAudioAboveThresholdDetected_none_of_empty hsel
    · rw [heq]
  · intro hsel
    rw [v3Tick_def]
    simp only
    rcases loudnessDetection_cases cfg now (decide (cfg.loudnessThreshold ≤ L)) st with
      heq | ⟨hp, t0, hl, hd, heq⟩ | ⟨hp, hl, hbt, heq⟩
    · rw [heq]
      show (silenceDetection cfg now (decide (cfg.loudnessThreshold ≤ L)) st).2 = none
      by_cases hps : st.processingAudioThresholdExceededEvent = true
      · rcases silenceDetection_cases cfg now (decide (cfg.loudnessThreshold ≤ L)) st hps with
          hsq | ⟨s', hsq⟩
        · rw [hsq]
          exact triggerOnSilenceDetected_none_of_empty hsel
        · rw [hsq]
      · rw [silenceDetection_inactive (by simpa using hps)]
    · rw [heq]
      show (silenceDetection cfg now (decide (cfg.loudnessThreshold ≤ L)) (v3Locked st)).2 = none
      have hps : (v3Locked st).processingAudioThresholdExceededEvent = true := rfl
      rcases silenceDetection_cases cfg now (decide (cfg.loudnessThreshold ≤ L))
          (v3Locked st) hps with hsq | ⟨s', hsq⟩
      · rw [hsq]
        exact triggerOnSilenceDetected_none_of_empty hsel
      · rw [hsq]
    · rw [heq]
      show (silenceDetection cfg now (decide (cfg.loudnessThreshold ≤ L))
        (v3Crossed cfg now st)).2 = none
      have hps : (v3Crossed cfg now st).processingAudioThresholdExceededEvent = false := hp
      rw [silenceDetection_inactive hps]
  · rw [v3Tick_def]
    simp only
    obtain ⟨hr1, ha1, hh1, -⟩ := loudnessDetection_preserves cfg now
      (decide (cfg.loudnessThreshold ≤ L)) st
    obtain ⟨hr2, ha2, hh2, -, -⟩ := silenceDetection_preserves cfg now
      (decide (cfg.loudnessThreshold ≤ L))
      (loudnessDetection cfg now (decide (cfg.loudnessThreshold ≤ L)) st).1
    exact ⟨ha2.trans ha1, hh2.trans hh1, hr2.trans hr1⟩

/-- Witness for C6 at the freshly started state (empty buffer). -/
theorem c6_witness :
    triggerOnAudioAboveThresholdDetected defaultV3Config startedV3State = none ∧
    triggerOnSilenceDetected defaultV3Config startedV3State = none ∧
    (v3Tick defaultV3Config 0 50 startedV3State).2.preview = none ∧
    (v3Tick defaultV3Config 0 50 startedV3State).2.complete = none ∧
    ((v3Tick defaultV3Config 0 50 startedV3State).1.audioChunks =
        startedV3State.audioChunks ∧
     (v3Tick defaultV3Config 0 50 startedV3State).1.headerChunks =
        startedV3State.headerChunks ∧
     (v3Tick defaultV3Config 0 50 startedV3State).1.isRecording =
        startedV3State.isRecording) :=
  have h := c6_empty_selection_noop defaultV3Config 0 50 startedV3State
  ⟨h.1 (by decide), h.2.1 (by decide), h.2.2.1 (by decide), h.2.2.2.1 (by decide),
   h.2.2.2.2⟩

/-- C9: a chunk arriving while the header set is not yet full is stored
both as a header chunk and in the main buffer, so any emitted blob whose
window contains that chunk's end-timestamp carries its payload twice:
once from the prepended header sequence and once as a selected chunk. -/
theorem c9_header_chunks_duplicated (cfg : V3Config) (st : V3State) (d : ChunkData)
    (e now : Int) :
    (0 < d.length → st.headerChunks.length < cfg.numberOfChunksToCaptureAsHeaders →
      (v3OnChunk cfg st d now).headerChunks = st.headerChunks ++ [d] ∧
      (v3OnChunk cfg st d now).audioChunks = st.audioChunks ++ [⟨d, now⟩]) ∧
    (∀ b : Blob, d ∈ st.headerChunks →
      (⟨d, e⟩ : ExtendedBlob) ∈ st.audioChunks →
      chunkInPreviewWindow st.audioShouldStartAtThisDateTime
        cfg.initialRecordingDuration ⟨d, e⟩ = true →
      triggerOnAudioAboveThresholdDetected cfg st = some b →
      2 ≤ b.parts.count d) ∧
    (∀ b : Blob, d ∈ st.headerChunks →
      (⟨d, e⟩ : ExtendedBlob) ∈ st.audioChunks →
      chunkInCompleteWindow st.audioShouldStartAtThisDateTime ⟨d, e⟩ = true →
      triggerOnSilenceDetected cfg st = some b →
      2 ≤ b.parts.count d) := by
  refine ⟨?_, ?_, ?_⟩
  · intro hd hh
    constructor <;> simp [v3OnChunk, hd, hh]
  · intro b hdh hda hwin htrig
    obtain ⟨-, -, hbeq⟩ := triggerOnAudioAboveThresholdDetected_eq_some htrig
    subst hbeq
    have hmem : d ∈ (st.audioChunks.filter (chunkInPreviewWindow
        st.audioShouldStartAtThisDateTime cfg.initialRecordingDuration)).map
        ExtendedBlob.data :=
      List.mem_map_of_mem ExtendedBlob.data (List.mem_filter.mpr ⟨hda, hwin⟩)
    have h1 : 0 < st.headerChunks.count d := List.count_pos_iff.mpr hdh
    have h2 : 0 < ((st.audioChunks.filter (chunkInPreviewWindow
        st.audioShouldStartAtThisDateTime cfg.initialRecordingDuration)).map
        ExtendedBlob.data).count d := List.count_pos_iff.mpr hmem
    show 2 ≤ (st.headerChunks ++ _).count d
    rw [List.count_append]
    omega
  · intro b hdh hda hwin htrig
    obtain ⟨-, -, hbeq⟩ := triggerOnSilenceDetected_eq_some htrig
    subst hbeq
    have hmem : d ∈ (st.audioChunks.filter (chunkInCompleteWindow
        st.audioShouldStartAtThisDateTime)).map ExtendedBlob.data :=
      List.mem_map_of_mem ExtendedBlob.data (List.mem_filter.mpr ⟨hda, hwin⟩)
    have h1 : 0 < st.headerChunks.count d := List.count_pos_iff.mpr hdh
    have h2 : 0 < ((st.audioChunks.filter (chunkInCompleteWindow
        st.audioShouldStartAtThisDateTime)).map ExtendedBlob.data).count d :=
      List.count_pos_iff.mpr hmem
    show 2 ≤ (st.headerChunks ++ _).count d
    rw [List.count_append]
    omega

/-- Witness for C9 at concrete inputs. -/
theorem c9_witness :
    ((v3OnChunk defaultV3Config startedV3State [7] 5).headerChunks =
        startedV3State.headerChunks ++ [[7]] ∧
     (v3OnChunk defaultV3Config startedV3State [7] 5).audioChunks =
        startedV3State.audioChunks ++ [⟨[7], 5⟩]) ∧
    2 ≤ c9Blob.parts.count [3] ∧ 2 ≤ c9Blob.parts.count [3] :=
  ⟨(c9_header_chunks_duplicated defaultV3Config startedV3State [7] 0 5).1
      (by decide) (by decide),
   (c9_header_chunks_duplicated defaultV3Config c9State [3] 10 0).2.1 c9Blob
      (by decide) (by decide) (by decide) (by decide),
   (c9_header_chunks_duplicated defaultV3Config c9State [3] 10 0).2.2 c9Blob
      (by decide) (by decide) (by decide) (by decide)⟩

/-- C10: when the preview-collection period elapses, the tick marks the
event as in flight (blocking further crossings and enabling silence
detection) before attempting the preview emission, so a preview skipped
for lack of matching chunks still leaves the event awaiting silence; a
tick during an in-flight event never emits a preview (no retry); and from
the awaiting-silence state a sufficiently long silence still emits the
complete clip. -/
theorem c10_skipped_preview_still_proceeds (cfg : V3Config) (now : Int) (L : ℚ)
    (st : V3State) :
    (∀ t0, st.loudnessDetectedStartTime = some t0 →
      st.processingAudioThresholdExceededEvent = false →
      st.silenceDetectedStartTime = none →
      0 < cfg.amountOfSilenceMsBeforeOnSilenceIsTriggered →
      cfg.initialRecordingDuration ≤ now - t0 →
      (v3Tick cfg now L st).1.processingAudioThresholdExceededEvent = true ∧
      (v3Tick cfg now L st).1.loudnessDetectedStartTime = none ∧
      (v3Tick cfg now L st).2.preview =
        triggerOnAudioAboveThresholdDetected cfg (v3Locked st) ∧
      (v3Tick cfg now L st).2.complete = none) ∧
    (st.processingAudioThresholdExceededEvent = true →
      (v3Tick cfg now L st).2.preview = none) ∧
    (∀ s, st.processingAudioThresholdExceededEvent = true →
      st.silenceDetectedStartTime = some s →
      L < cfg.loudnessThreshold →
      cfg.amountOfSilenceMsBeforeOnSilenceIsTriggered ≤ now - s →
      st.isRecording = true →
      st.audioChunks.filter (chunkInCompleteWindow st.audioShouldStartAtThisDateTime) ≠ [] →
      ((v3Tick cfg now L st).2.complete).isSome = true) := by
  refine ⟨?_, ?_, ?_⟩
  · intro t0 hl hp hs hpos hd
    rw [v3Tick_def]
    simp only
    rw [loudnessDetection_collect_done hp hl hd]
    have hps : (v3Locked st).processingAudioThresholdExceededEvent = true := rfl
    have hss : (v3Locked st).silenceDetectedStartTime = none := hs
    obtain ⟨hc, hpr, hlo⟩ := @silenceDetection_fresh cfg now
      (decide (cfg.loudnessThreshold ≤ L)) (v3Locked st) hps hss hpos
    exact ⟨hpr, hlo, rfl, hc⟩
  · intro hp
    rw [v3Tick_def]
    simp only
    rw [loudnessDetection_processing_true hp]
  · intro s hp hs hL hd hr hne
    rw [v3Tick_def]
    simp only
    rw [loudnessDetection_processing_true hp]
    have hb : decide (cfg.loudnessThreshold ≤ L) = false :=
      decide_eq_false (not_le.mpr hL)
    rw [hb]
    show ((silenceDetection cfg now false st).2).isSome = true
    rw [silenceDetection_fires hp hs hd]
    show (triggerOnSilenceDetected cfg st).isSome = true
    rw [triggerOnSilenceDetected_isSome hr hne]
    rfl

/-- Witness for C10 at concrete inputs. -/
theorem c10_witness :
    ((v3Tick defaultV3Config 1000 0 c10EmptyState).1.processingAudioThresholdExceededEvent
        = true ∧
      (v3Tick defaultV3Config 1000 0 c10EmptyState).1.loudnessDetectedStartTime = none ∧
      (v3Tick defaultV3Config 1000 0 c10EmptyState).2.preview =
        triggerOnAudioAboveThresholdDetected defaultV3Config (v3Locked c10EmptyState) ∧
      (v3Tick defaultV3Config 1000 0 c10EmptyState).2.complete = none) ∧
    (v3Tick defaultV3Config 0 50 c10SilenceState).2.preview = none ∧
    ((v3Tick defaultV3Config 1000 0 c10SilenceState).2.complete).isSome = true :=
  ⟨(c10_skipped_preview_still_proceeds defaultV3Config 1000 0 c10EmptyState).1 0
      rfl rfl rfl (by decide) (by decide),
   (c10_skipped_preview_still_proceeds defaultV3Config 0 50 c10SilenceState).2.1 rfl,
   (c10_skipped_preview_still_proceeds defaultV3Config 1000 0 c10SilenceState).2.2 0
      rfl rfl (by decide) (by decide) rfl (by decide)⟩

theorem previewCount_cons (o : TickOutput) (outs : List TickOutput) :
    previewCount (o :: outs) = pOne o + previewCount outs := by
  simp only [previewCount, pOne, List.countP_cons]
  exact Nat.add_comm _ _

theorem completeCount_cons (o : TickOutput) (outs : List TickOutput) :
    completeCount (o :: outs) = cOne o + completeCount outs := by
  simp only [completeCount, cOne, List.countP_cons]
  exact Nat.add_comm _ _

@[simp] theorem pOne_none (L : ℚ) (z : Option Blob) : pOne ⟨L, none, z⟩ = 0 := rfl

@[simp] theorem pOne_some (L : ℚ) (b : Blob) (z : Option Blob) : pOne ⟨L, some b, z⟩ = 1 := rfl

@[simp] theorem cOne_none (L : ℚ) (y : Option Blob) : cOne ⟨L, y, none⟩ = 0 := rfl

@[simp] theorem cOne_some (L : ℚ) (y : Option Blob) (b : Blob) : cOne ⟨L, y, some b⟩ = 1 := rfl

theorem eventFlag_eq_one {st : V3State}
    (h : st.processingAudioThresholdExceededEvent = true) : eventFlag st = 1 := by
  unfold eventFlag
  rw [if_pos h]

theorem eventFlag_eq_zero {st : V3State}
    (h : st.processingAudioThresholdExceededEvent = false) : eventFlag st = 0 := by
  unfold eventFlag
  rw [if_neg (by simp [h])]

theorem c1Inv_tick (cfg : V3Config) (now : Int) (L : ℚ) (st : V3State) (p c : Nat)
    (h : c1Inv st p c) :
    c1Inv (v3Tick cfg now L st).1 (p + pOne (v3Tick cfg now L st).2)
      (c + cOne (v3Tick cfg now L st).2) := by
  obtain ⟨h1, h2⟩ := h
  rw [v3Tick_def]
  rcases loudnessDetection_cases cfg now (decide (cfg.loudnessThreshold ≤ L)) st with
    heq | ⟨hp, t0, hl, hd, heq⟩ | ⟨hp, hl, hbt, heq⟩
  · -- loudnessDetection leaves the state alone
    rw [heq]
    dsimp only
    by_cases hps : st.processingAudioThresholdExceededEvent = true
    · rcases silenceDetection_cases cfg now (decide (cfg.loudnessThreshold ≤ L)) st hps with
        hsq | ⟨s', hsq⟩
      · -- the silence timer fires: the event finishes
        rw [hsq]
        dsimp only
        simp only [pOne_none, Nat.add_zero]
        rcases htr : triggerOnSilenceDetected cfg st with _ | bb
        · simp only [cOne_none, Nat.add_zero]
          constructor
          · show p ≤ c
            by_cases hpc : p = c + 1
            · exfalso
              obtain ⟨hr, ch, hch, hle⟩ := h2 hps hpc
              have hmem : ch ∈ st.audioChunks.filter
                  (chunkInCompleteWindow st.audioShouldStartAtThisDateTime) :=
                List.mem_filter.mpr ⟨hch, by
                  unfold chunkInCompleteWindow
                  exact decide_eq_true hle⟩
              have h3 := @triggerOnSilenceDetected_isSome cfg st hr
                (List.ne_nil_of_mem hmem)
              rw [htr] at h3
              exact Option.noConfusion h3
            · have h1' := h1
              rw [eventFlag_eq_one hps] at h1'
              omega
          · intro hpp
            exact Bool.noConfusion (show (false : Bool) = true from hpp)
        · simp only [cOne_some]
          constructor
          · show p ≤ c + 1
            have h1' := h1
            rw [eventFlag_eq_one hps] at h1'
            omega
          · intro hpp
            exact Bool.noConfusion (show (false : Bool) = true from hpp)
      · -- still awaiting silence
        rw [hsq]
        dsimp only
        simp only [pOne_none, cOne_none, Nat.add_zero]
        constructor
        · exact h1
        · intro hpp hpc
          obtain ⟨hr, ch, hch, hle⟩ := h2 hpp hpc
          exact ⟨hr, ch, hch, hle⟩
    · have hps' : st.processingAudioThresholdExceededEvent = false := by simpa using hps
      rw [silenceDetection_inactive hps']
      dsimp only
      simp only [pOne_none, cOne_none, Nat.add_zero]
      exact ⟨h1, h2⟩
  · -- the preview-collection period elapsed: the event is locked first,
    -- then the preview emission is attempted
    rw [heq]
    dsimp only
    have h1' : p ≤ c := by
      have h1'' := h1
      rw [eventFlag_eq_zero hp] at h1''
      omega
    have hpsL : (v3Locked st).processingAudioThresholdExceededEvent = true := rfl
    rcases silenceDetection_cases cfg now (decide (cfg.loudnessThreshold ≤ L))
        (v3Locked st) hpsL with hsq | ⟨s', hsq⟩
    · -- silence fires within the same tick
      rw [hsq]
      dsimp only
      rcases htrP : triggerOnAudioAboveThresholdDetected cfg (v3Locked st) with _ | bb
      · simp only [pOne_none, Nat.add_zero]
        rcases htrC : triggerOnSilenceDetected cfg (v3Locked st) with _ | bb2
        · simp only [cOne_none, Nat.add_zero]
          constructor
          · show p ≤ c
            exact h1'
          · intro hpp
            exact Bool.noConfusion (show (false : Bool) = true from hpp)
        · simp only [cOne_some]
          constructor
          · show p ≤ c + 1
            omega
          · intro hpp
            exact Bool.noConfusion (show (false : Bool) = true from hpp)
      · obtain ⟨hr, hne, -⟩ := triggerOnAudioAboveThresholdDetected_eq_some htrP
        obtain ⟨ch, hchf⟩ := List.exists_mem_of_ne_nil _ hne
        obtain ⟨hch, hwin⟩ := List.mem_filter.mp hchf
        have hcw : chunkInCompleteWindow
            (v3Locked st).audioShouldStartAtThisDateTime ch = true :=
          chunkInCompleteWindow_of_preview hwin
        have hmemC : ch ∈ (v3Locked st).audioChunks.filter
            (chunkInCompleteWindow (v3Locked st).audioShouldStartAtThisDateTime) :=
          List.mem_filter.mpr ⟨hch, hcw⟩
        have htrC := @triggerOnSilenceDetected_isSome cfg (v3Locked st) hr
          (List.ne_nil_of_mem hmemC)
        rw [htrC]
        simp only [pOne_some, cOne_some]
        constructor
        · show p + 1 ≤ c + 1
          omega
        · intro hpp
          exact Bool.noConfusion (show (false : Bool) = true from hpp)
    · -- still awaiting silence after the preview attempt
      rw [hsq]
      dsimp only
      simp only [cOne_none, Nat.add_zero]
      constructor
      · rcases htrP : triggerOnAudioAboveThresholdDetected cfg (v3Locked st) with _ | bb
        · simp only [pOne_none, Nat.add_zero]
          show p ≤ c + 1
          omega
        · simp only [pOne_some]
          show p + 1 ≤ c + 1
          omega
      · intro hpp hpc
        rcases htrP : triggerOnAudioAboveThresholdDetected cfg (v3Locked st) with _ | bb
        · rw [htrP] at hpc
          simp only [pOne_none, Nat.add_zero] at hpc
          omega
        · obtain ⟨hr, hne, -⟩ := triggerOnAudioAboveThresholdDetected_eq_some htrP
          obtain ⟨ch, hchf⟩ := List.exists_mem_of_ne_nil _ hne
          obtain ⟨hch, hwin⟩ := List.mem_filter.mp hchf
          have hle : (v3Locked st).audioShouldStartAtThisDateTime ≤
              ch.dateTimeBlobEnded := by
            have hcw := chunkInCompleteWindow_of_preview hwin
            unfold chunkInCompleteWindow at hcw
            exact of_decide_eq_true hcw
          exact ⟨hr, ch, hch, hle⟩
  · -- a fresh crossing: no emission, flag stays down
    rw [heq]
    dsimp only
    have hpsC : (v3Crossed cfg now st).processingAudioThresholdExceededEvent = false := hp
    rw [silenceDetection_inactive hpsC]
    dsimp only
    simp only [pOne_none, cOne_none, Nat.add_zero]
    constructor
    · exact h1
    · intro hpp
      have hst : st.processingAudioThresholdExceededEvent = true := hpp
      rw [hp] at hst
      exact Bool.noConfusion hst

theorem c1Inv_chunk (cfg : V3Config) (st : V3State) (d : ChunkData) (now : Int)
    (p c : Nat) (h : c1Inv st p c) : c1Inv (v3OnChunk cfg st d now) p c := by
  obtain ⟨h1, h2⟩ := h
  unfold v3OnChunk
  split
  · constructor
    · have hflag : eventFlag { st with
          headerChunks := if st.headerChunks.length < cfg.numberOfChunksToCaptureAsHeaders
            then st.headerChunks ++ [d] else st.headerChunks,
          audioChunks := st.audioChunks ++ [⟨d, now⟩] } = eventFlag st := rfl
      rw [hflag]
      exact h1
    · intro hp hpc
      obtain ⟨hr, ch, hch, hle⟩ := h2 hp hpc
      exact ⟨hr, ch, List.mem_append_left _ hch, hle⟩
  · exact ⟨h1, h2⟩

theorem c1Inv_run (cfg : V3Config) (evs : List V3Event) (st : V3State) (p c : Nat)
    (h : c1Inv st p c) :
    c1Inv (v3Run cfg st evs).1 (p + previewCount (v3Run cfg st evs).2)
      (c + completeCount (v3Run cfg st evs).2) := by
  induction evs generalizing st p c with
  | nil => simpa [v3Run, previewCount, completeCount] using h
  | cons e es ih =>
    cases e with
    | tick now L =>
      have hstep := c1Inv_tick cfg now L st p c h
      have hrun := ih (v3Tick cfg now L st).1 _ _ hstep
      simp only [v3Run, previewCount_cons, completeCount_cons]
      have e1 : p + (pOne (v3Tick cfg now L st).2 +
          previewCount (v3Run cfg (v3Tick cfg now L st).1 es).2) =
          p + pOne (v3Tick cfg now L st).2 +
          previewCount (v3Run cfg (v3Tick cfg now L st).1 es).2 := by omega
      have e2 : c + (cOne (v3Tick cfg now L st).2 +
          completeCount (v3Run cfg (v3Tick cfg now L st).1 es).2) =
          c + cOne (v3Tick cfg now L st).2 +
          completeCount (v3Run cfg (v3Tick cfg now L st).1 es).2 := by omega
      rw [e1, e2]
      exact hrun
    | chunk d now =>
      have hstep := c1Inv_chunk cfg st d now p c h
      simpa only [v3Run] using ih (v3OnChunk cfg st d now) p c hstep

/-- C1: while a speech event is in flight (state not Idle), a loudness
sample at or above the threshold is never recognized as a new crossing:
no tick changes audioShouldStartAtThisDateTime while in flight, and over
every event sequence from the started state, at most one preview clip is
emitted per event (the preview count never exceeds the complete count
plus one). -/
theorem c1_at_most_one_preview_per_event :
    (∀ (cfg : V3Config) (now : Int) (L : ℚ) (st : V3State), v3InFlight st →
      (v3Tick cfg now L st).1.audioShouldStartAtThisDateTime =
        st.audioShouldStartAtThisDateTime) ∧
    (∀ (cfg : V3Config) (evs : List V3Event),
      previewCount (v3Run cfg startedV3State evs).2 ≤
        completeCount (v3Run cfg startedV3State evs).2 + 1) := by
  constructor
  · intro cfg now L st hin
    rw [v3Tick_def]
    simp only
    obtain ⟨-, -, -, hws, -⟩ := silenceDetection_preserves cfg now
      (decide (cfg.loudnessThreshold ≤ L))
      (loudnessDetection cfg now (decide (cfg.loudnessThreshold ≤ L)) st).1
    rw [hws]
    rcases loudnessDetection_cases cfg now (decide (cfg.loudnessThreshold ≤ L)) st with
      heq | ⟨hp, t0, hl, hd, heq⟩ | ⟨hp, hl, hbt, heq⟩
    · rw [heq]
    · rw [heq]
      rfl
    · exfalso
      rcases hin with hin | hin
      · exact hin hl
      · rw [hin] at hp
        exact Bool.noConfusion hp
  · intro cfg evs
    have h0 : c1Inv startedV3State 0 0 := by
      constructor
      · simp [eventFlag, startedV3State]
      · intro hp
        exact absurd hp (by simp [startedV3State])
    have h := c1Inv_run cfg evs startedV3State 0 0 h0
    obtain ⟨h1, -⟩ := h
    simp only [Nat.zero_add] at h1
    calc previewCount (v3Run cfg startedV3State evs).2
        ≤ completeCount (v3Run cfg startedV3State evs).2 +
          eventFlag (v3Run cfg startedV3State evs).1 := h1
      _ ≤ completeCount (v3Run cfg startedV3State evs).2 + 1 := by
          unfold eventFlag
          split <;> omega

/-- Witness for C1: the window start survives a loud tick in flight. -/
theorem c1_witness :
    (v3Tick defaultV3Config 500 50 c1State).1.audioShouldStartAtThisDateTime =
      c1State.audioShouldStartAtThisDateTime :=
  c1_at_most_one_preview_per_event.1 defaultV3Config 500 50 c1State (Or.inr rfl)

theorem v3Run_append (cfg : V3Config) (l1 l2 : List V3Event) (st : V3State) :
    v3Run cfg st (l1 ++ l2) =
      ((v3Run cfg (v3Run cfg st l1).1 l2).1,
       (v3Run cfg st l1).2 ++ (v3Run cfg (v3Run cfg st l1).1 l2).2) := by
  induction l1 generalizing st with
  | nil => simp [v3Run]
  | cons e es ih =>
    cases e with
    | tick now L => simp [v3Run, ih]
    | chunk d now => simp [v3Run, ih]

theorem v3OnChunk_fields (cfg : V3Config) (st : V3State) (d : ChunkData) (now : Int) :
    (v3OnChunk cfg st d now).loudnessDetectedStartTime = st.loudnessDetectedStartTime ∧
    (v3OnChunk cfg st d now).processingAudioThresholdExceededEvent =
      st.processingAudioThresholdExceededEvent ∧
    (v3OnChunk cfg st d now).silenceDetectedStartTime = st.silenceDetectedStartTime ∧
    (v3OnChunk cfg st d now).audioShouldStartAtThisDateTime =
      st.audioShouldStartAtThisDateTime ∧
    (v3OnChunk cfg st d now).isRecording = st.isRecording ∧
    ((∀ ch ∈ st.audioChunks, ch.data ≠ []) →
      ∀ ch ∈ (v3OnChunk cfg st d now).audioChunks, ch.data ≠ []) := by
  unfold v3OnChunk
  split
  next hlen =>
    refine ⟨rfl, rfl, rfl, rfl, rfl, ?_⟩
    intro hne ch hch
    rcases List.mem_append.mp hch with hch | hch
    · exact hne ch hch
    · have : ch = ⟨d, now⟩ := List.mem_singleton.mp hch
      rw [this]
      exact List.length_pos.mp hlen
  next hlen => exact ⟨rfl, rfl, rfl, rfl, rfl, fun hne => hne⟩

/-- While the preview is still being collected (crossing at t0, event not
yet processed), every tick before the deadline and every chunk arrival
keeps the machine collecting, emits nothing, and leaves the window
start, silence timer and recording flag unchanged. -/
theorem v3Run_collecting (cfg : V3Config) (t0 : Int) (evs : List V3Event) (st : V3State)
    (hl : st.loudnessDetectedStartTime = some t0)
    (hp : st.processingAudioThresholdExceededEvent = false)
    (hevs : ∀ e ∈ evs, eventBeforeDeadline t0 cfg.initialRecordingDuration e = true) :
    (v3Run cfg st evs).1.loudnessDetectedStartTime = some t0 ∧
    (v3Run cfg st evs).1.processingAudioThresholdExceededEvent = false ∧
    (v3Run cfg st evs).1.silenceDetectedStartTime = st.silenceDetectedStartTime ∧
    (v3Run cfg st evs).1.audioShouldStartAtThisDateTime =
      st.audioShouldStartAtThisDateTime ∧
    (v3Run cfg st evs).1.isRecording = st.isRecording ∧
    ((∀ ch ∈ st.audioChunks, ch.data ≠ []) →
      ∀ ch ∈ (v3Run cfg st evs).1.audioChunks, ch.data ≠ []) ∧
    (∀ o ∈ (v3Run cfg st evs).2, o.preview = none ∧ o.complete = none) := by
  induction evs generalizing st with
  | nil =>
    refine ⟨hl, hp, rfl, rfl, rfl, fun hne => hne, ?_⟩
    intro o ho
    simp [v3Run] at ho
  | cons e es ih =>
    cases e with
    | tick now L =>
      have hev := hevs (V3Event.tick now L) (List.mem_cons_self _ _)
      have hd : now - t0 < cfg.initialRecordingDuration := by
        unfold eventBeforeDeadline at hev
        exact of_decide_eq_true hev
      have hLD : loudnessDetection cfg now (decide (cfg.loudnessThreshold ≤ L)) st =
          (st, none) := loudnessDetection_collect_wait hp hl (not_le.mpr hd)
      have htick : v3Tick cfg now L st = (st, ⟨L, none, none⟩) := by
        rw [v3Tick_def, hLD]
        dsimp only
        rw [silenceDetection_inactive hp]
      simp only [v3Run, htick]
      obtain ⟨i1, i2, i3, i4, i5, i6, i7⟩ :=
        ih st hl hp (fun e he => hevs e (List.mem_cons_of_mem _ he))
      refine ⟨i1, i2, i3, i4, i5, i6, ?_⟩
      intro o ho
      rcases List.mem_cons.mp ho with ho | ho
      · rw [ho]
        exact ⟨rfl, rfl⟩
      · exact i7 o ho
    | chunk d now =>
      obtain ⟨f1, f2, f3, f4, f5, f6⟩ := v3OnChunk_fields cfg st d now
      simp only [v3Run]
      obtain ⟨i1, i2, i3, i4, i5, i6, i7⟩ :=
        ih (v3OnChunk cfg st d now) (f1.trans hl) (f2.trans hp)
          (fun e he => hevs e (List.mem_cons_of_mem _ he))
      exact ⟨i1, i2, i3.trans f3, i4.trans f4, i5.trans f5,
        fun hne => i6 (f6 hne), i7⟩

/-- C2: for a run with a single threshold crossing at t0 (arbitrary
loudness afterwards), chunk arrivals and ticks before the preview
duration has elapsed, and a final tick once it has, exactly one preview
clip is emitted, on that final tick; its chunk window is
[t0 - preTriggerLeadIn, t0 - preTriggerLeadIn + previewDuration], its
MIME type is the configured one, and the blob is non-empty. -/
theorem c2_single_crossing_one_preview (cfg : V3Config) (st0 : V3State)
    (t0 t1 : Int) (L0 L1 : ℚ) (mid : List V3Event)
    (hRec : st0.isRecording = true)
    (hIdle : st0.loudnessDetectedStartTime = none)
    (hProc : st0.processingAudioThresholdExceededEvent = false)
    (hSil : st0.silenceDetectedStartTime = none)
    (hData : ∀ ch ∈ st0.audioChunks, ch.data ≠ [])
    (hCross : cfg.loudnessThreshold ≤ L0)
    (hMid : ∀ e ∈ mid, eventBeforeDeadline t0 cfg.initialRecordingDuration e = true)
    (hElapsed : cfg.initialRecordingDuration ≤ t1 - t0)
    (hSilDur : 0 < cfg.amountOfSilenceMsBeforeOnSilenceIsTriggered)
    (hSel : (v3Run cfg (v3Tick cfg t0 L0 st0).1 mid).1.audioChunks.filter
        (chunkInPreviewWindow
          (t0 - cfg.msWorthOfAudioThatShouldBeIncludedBeforVolumeThresholdWasCrossed)
          cfg.initialRecordingDuration) ≠ []) :
    ∃ b : Blob,
      previewCount (v3Run cfg st0
        (V3Event.tick t0 L0 :: (mid ++ [V3Event.tick t1 L1]))).2 = 1 ∧
      ((v3Run cfg st0 (V3Event.tick t0 L0 :: (mid ++ [V3Event.tick t1 L1]))).2.map
        TickOutput.preview).getLast? = some (some b) ∧
      b.parts = (v3Run cfg (v3Tick cfg t0 L0 st0).1 mid).1.headerChunks ++
        ((v3Run cfg (v3Tick cfg t0 L0 st0).1 mid).1.audioChunks.filter
          (chunkInPreviewWindow
            (t0 - cfg.msWorthOfAudioThatShouldBeIncludedBeforVolumeThresholdWasCrossed)
            cfg.initialRecordingDuration)).map ExtendedBlob.data ∧
      b.type = cfg.currentMimeType ∧
      b.parts ≠ [] ∧ 0 < blobSize b := by
  have hb0 : decide (cfg.loudnessThreshold ≤ L0) = true := decide_eq_true hCross
  have hLD0 : loudnessDetection cfg t0 true st0 = (v3Crossed cfg t0 st0, none) :=
    loudnessDetection_cross hProc hIdle
  have htick0 : v3Tick cfg t0 L0 st0 = (v3Crossed cfg t0 st0, ⟨L0, none, none⟩) := by
    rw [v3Tick_def, hb0, hLD0]
    dsimp only
    rw [silenceDetection_inactive
      (show (v3Crossed cfg t0 st0).processingAudioThresholdExceededEvent = false from hProc)]
  have hfst : (v3Tick cfg t0 L0 st0).1 = v3Crossed cfg t0 st0 := by rw [htick0]
  rw [hfst] at hSel ⊢
  obtain ⟨m1, m2, m3, m4, m5, m6, m7⟩ := v3Run_collecting cfg t0 mid (v3Crossed cfg t0 st0)
    rfl hProc hMid
  -- facts about the state reached after the collection phase
  have hrecF : (v3Run cfg (v3Crossed cfg t0 st0) mid).1.isRecording = true :=
    m5.trans (show (v3Crossed cfg t0 st0).isRecording = true from hRec)
  have hwsF : (v3Run cfg (v3Crossed cfg t0 st0) mid).1.audioShouldStartAtThisDateTime =
      t0 - cfg.msWorthOfAudioThatShouldBeIncludedBeforVolumeThresholdWasCrossed :=
    m4.trans rfl
  have hssF : (v3Run cfg (v3Crossed cfg t0 st0) mid).1.silenceDetectedStartTime = none :=
    m3.trans (show (v3Crossed cfg t0 st0).silenceDetectedStartTime = none from hSil)
  have hdataF : ∀ ch ∈ (v3Run cfg (v3Crossed cfg t0 st0) mid).1.audioChunks,
      ch.data ≠ [] := m6 hData
  have hLDF : loudnessDetection cfg t1 (decide (cfg.loudnessThreshold ≤ L1))
      (v3Run cfg (v3Crossed cfg t0 st0) mid).1 =
      (v3Locked (v3Run cfg (v3Crossed cfg t0 st0) mid).1,
       triggerOnAudioAboveThresholdDetected cfg
         (v3Locked (v3Run cfg (v3Crossed cfg t0 st0) mid).1)) :=
    loudnessDetection_collect_done m2 m1 hElapsed
  -- the preview emission on the final tick
  have hselF : (v3Locked (v3Run cfg (v3Crossed cfg t0 st0) mid).1).audioChunks.filter
      (chunkInPreviewWindow
        (v3Locked (v3Run cfg (v3Crossed cfg t0 st0) mid).1).audioShouldStartAtThisDateTime
        cfg.initialRecordingDuration) ≠ [] := by
    have hws' : (v3Locked (v3Run cfg (v3Crossed cfg t0 st0) mid).1).audioShouldStartAtThisDateTime =
        t0 - cfg.msWorthOfAudioThatShouldBeIncludedBeforVolumeThresholdWasCrossed := hwsF
    rw [hws']
    exact hSel
  have htrigP := @triggerOnAudioAboveThresholdDetected_isSome cfg
    (v3Locked (v3Run cfg (v3Crossed cfg t0 st0) mid).1) hrecF hselF
  rw [show (v3Locked (v3Run cfg (v3Crossed cfg t0 st0) mid).1).audioShouldStartAtThisDateTime =
      t0 - cfg.msWorthOfAudioThatShouldBeIncludedBeforVolumeThresholdWasCrossed from hwsF,
    show (v3Locked (v3Run cfg (v3Crossed cfg t0 st0) mid).1).headerChunks =
      (v3Run cfg (v3Crossed cfg t0 st0) mid).1.headerChunks from rfl,
    show (v3Locked (v3Run cfg (v3Crossed cfg t0 st0) mid).1).audioChunks =
      (v3Run cfg (v3Crossed cfg t0 st0) mid).1.audioChunks from rfl] at htrigP
  -- no complete clip on the final tick
  obtain ⟨hsd2, -, -⟩ := @silenceDetection_fresh cfg t1
    (decide (cfg.loudnessThreshold ≤ L1))
    (v3Locked (v3Run cfg (v3Crossed cfg t0 st0) mid).1)
    (show (v3Locked (v3Run cfg (v3Crossed cfg t0 st0) mid).1).processingAudioThresholdExceededEvent
      = true from rfl)
    (show (v3Locked (v3Run cfg (v3Crossed cfg t0 st0) mid).1).silenceDetectedStartTime
      = none from hssF)
    hSilDur
  have hprevF : (v3Tick cfg t1 L1 (v3Run cfg (v3Crossed cfg t0 st0) mid).1).2.preview =
      some ⟨(v3Run cfg (v3Crossed cfg t0 st0) mid).1.headerChunks ++
        ((v3Run cfg (v3Crossed cfg t0 st0) mid).1.audioChunks.filter
          (chunkInPreviewWindow
            (t0 - cfg.msWorthOfAudioThatShouldBeIncludedBeforVolumeThresholdWasCrossed)
            cfg.initialRecordingDuration)).map ExtendedBlob.data,
        cfg.currentMimeType⟩ := by
    rw [v3Tick_def]
    dsimp only
    rw [hLDF]
    exact htrigP
  -- assemble the run
  have hrun : v3Run cfg st0 (V3Event.tick t0 L0 :: (mid ++ [V3Event.tick t1 L1])) =
      ((v3Tick cfg t1 L1 (v3Run cfg (v3Crossed cfg t0 st0) mid).1).1,
       TickOutput.mk L0 none none ::
         ((v3Run cfg (v3Crossed cfg t0 st0) mid).2 ++
          [(v3Tick cfg t1 L1 (v3Run cfg (v3Crossed cfg t0 st0) mid).1).2])) := by
    simp only [v3Run]
    rw [htick0]
    dsimp only
    rw [v3Run_append cfg mid [V3Event.tick t1 L1] (v3Crossed cfg t0 st0)]
    simp only [v3Run]
  refine ⟨⟨(v3Run cfg (v3Crossed cfg t0 st0) mid).1.headerChunks ++
      ((v3Run cfg (v3Crossed cfg t0 st0) mid).1.audioChunks.filter
        (chunkInPreviewWindow
          (t0 - cfg.msWorthOfAudioThatShouldBeIncludedBeforVolumeThresholdWasCrossed)
          cfg.initialRecordingDuration)).map ExtendedBlob.data,
      cfg.currentMimeType⟩, ?_, ?_, rfl, rfl, ?_, ?_⟩
  · -- exactly one preview
    rw [hrun]
    dsimp only
    rw [previewCount_cons]
    have hmid0 : previewCount (v3Run cfg (v3Crossed cfg t0 st0) mid).2 = 0 := by
      unfold previewCount
      rw [List.countP_eq_zero]
      intro o ho
      simp [(m7 o ho).1]
    unfold previewCount at hmid0 ⊢
    rw [List.countP_append, hmid0]
    have hlast : List.countP (fun o => o.preview.isSome)
        [(v3Tick cfg t1 L1 (v3Run cfg (v3Crossed cfg t0 st0) mid).1).2] = 1 := by
      simp [List.countP_cons, hprevF]
    rw [hlast]
    rfl
  · -- the preview arrives on the final tick
    rw [hrun]
    dsimp only
    rw [List.map_cons, List.map_append]
    rw [show (TickOutput.mk L0 none none).preview = (none : Option Blob) from rfl]
    rw [show ([(v3Tick cfg t1 L1 (v3Run cfg (v3Crossed cfg t0 st0) mid).1).2].map
        TickOutput.preview) =
      [(v3Tick cfg t1 L1 (v3Run cfg (v3Crossed cfg t0 st0) mid).1).2.preview] from rfl]
    rw [← List.cons_append, List.getLast?_concat, hprevF]
  · -- the blob is a non-empty list of parts
    intro hnil
    obtain ⟨h1, h2⟩ := List.append_eq_nil.mp hnil
    exact hSel (List.map_eq_nil_iff.mp h2)
  · -- the blob has non-zero total size
    obtain ⟨ch, hchsel⟩ := List.exists_mem_of_ne_nil _ hSel
    obtain ⟨hchmem, -⟩ := List.mem_filter.mp hchsel
    have hchne : ch.data ≠ [] := hdataF ch hchmem
    have hmemparts : ch.data ∈ (v3Run cfg (v3Crossed cfg t0 st0) mid).1.headerChunks ++
        ((v3Run cfg (v3Crossed cfg t0 st0) mid).1.audioChunks.filter
          (chunkInPreviewWindow
            (t0 - cfg.msWorthOfAudioThatShouldBeIncludedBeforVolumeThresholdWasCrossed)
            cfg.initialRecordingDuration)).map ExtendedBlob.data :=
      List.mem_append_right _ (List.mem_map_of_mem ExtendedBlob.data hchsel)
    rcases Nat.eq_zero_or_pos (blobSize ⟨_, cfg.currentMimeType⟩) with hz | hpos
    · exfalso
      unfold blobSize at hz
      have hall := List.sum_eq_zero_iff.mp hz
      have hlen0 : ch.data.length = 0 :=
        hall ch.data.length (List.mem_map_of_mem List.length hmemparts)
      exact hchne (List.eq_nil_of_length_eq_zero hlen0)
    · exact hpos

/-- Witness for C2 at a concrete run. -/
theorem c2_witness :
    ∃ b : Blob,
      previewCount (v3Run defaultV3Config startedV3State
        (V3Event.tick 0 50 :: (c2Mid ++ [V3Event.tick 1000 0]))).2 = 1 ∧
      ((v3Run defaultV3Config startedV3State
        (V3Event.tick 0 50 :: (c2Mid ++ [V3Event.tick 1000 0]))).2.map
        TickOutput.preview).getLast? = some (some b) ∧
      b.parts = c2StF.headerChunks ++
        (c2StF.audioChunks.filter (chunkInPreviewWindow
          (0 - defaultV3Config.msWorthOfAudioThatShouldBeIncludedBeforVolumeThresholdWasCrossed)
          defaultV3Config.initialRecordingDuration)).map ExtendedBlob.data ∧
      b.type = defaultV3Config.currentMimeType ∧
      b.parts ≠ [] ∧ 0 < blobSize b :=
  c2_single_crossing_one_preview defaultV3Config startedV3State 0 1000 50 0 c2Mid
    rfl rfl rfl rfl (by decide) (by decide) (by decide) (by decide) (by decide) (by decide)

/-- C3: in the run with the crossing at t=0, loudness below threshold
from t=1200 on and silenceDuration=1000, exactly one complete clip is
emitted, on the tick at t=2200 (silenceDuration after the drop), and it
covers the window [-preTriggerLeadIn, 2200] = [-100, 2200]; moreover any
sample at or above the threshold during an in-flight event resets the
silence timer to not running. -/
theorem c3_silence_completion_at_2200 :
    (completeCount (v3Run defaultV3Config startedV3State c3Events).2 = 1 ∧
     ((v3Run defaultV3Config startedV3State c3Events).2.map TickOutput.complete).getLast?
       = some (some ⟨c3Headers ++ (c3AllChunks.filter (fun ch =>
           decide ((-100 : Int) ≤ ch.dateTimeBlobEnded) &&
           decide (ch.dateTimeBlobEnded ≤ (2200 : Int)))).map ExtendedBlob.data,
         "audio/webm;codecs=opus"⟩)) ∧
    (∀ (cfg : V3Config) (now : Int) (L : ℚ) (st : V3State),
      st.processingAudioThresholdExceededEvent = true →
      cfg.loudnessThreshold ≤ L →
      (v3Tick cfg now L st).1.silenceDetectedStartTime = none) := by
  constructor
  · exact ⟨by decide, by decide⟩
  · intro cfg now L st hp hL
    have hb : decide (cfg.loudnessThreshold ≤ L) = true := decide_eq_true hL
    rw [v3Tick_def, hb]
    dsimp only
    rw [loudnessDetection_processing_true hp]
    dsimp only
    simp [silenceDetection, hp]

/-- Witness for C3's silence-timer-reset conjunct at a concrete tick. -/
theorem c3_witness :
    (v3Tick defaultV3Config 700 50 c10SilenceState).1.silenceDetectedStartTime = none :=
  c3_silence_completion_at_2200.2 defaultV3Config 700 50 c10SilenceState rfl (by decide)

/-- C5 counterexample: when the silence timeout completes the speech
event on c5State, a complete blob is emitted and the buffer restarted,
but audioStartPoint keeps its value 500 — it is not cleared to its
initial value 0 as the claim states. -/
theorem c5_counterexample :
    ((v1SilenceTimeoutFire defaultV1Config 1600 c5State).2).isSome = true ∧
    (v1SilenceTimeoutFire defaultV1Config 1600 c5State).1.audioStartPoint = 500 ∧
    ¬ (v1SilenceTimeoutFire defaultV1Config 1600 c5State).1.audioStartPoint = 0 := by
  decide

/-- C5 (amended): when sustained silence completes a speech event, the
system emits the complete blob assembled by sendCompleteBlob (headers
followed by the chunks whose estimated end-times are at or after
audioStartPoint), empties the main chunk buffer for the next event while
keeping the captured header set, clears the in-flight flag, keeps
recording — and leaves audioStartPoint unchanged rather than clearing
it. -/
theorem c5_amended_silence_completion (cfg : V1Config) (now : Int) (st : V1State)
    (hPending : st.silenceTimeoutActive = true) (hRec : st.isRecording = true) :
    (v1SilenceTimeoutFire cfg now st).2 =
      v1SendCompleteBlob cfg { st with silenceTimeoutActive := false } ∧
    (v1SilenceTimeoutFire cfg now st).1.audioChunks = [] ∧
    (st.hasCapturedHeaders = true →
      (v1SilenceTimeoutFire cfg now st).1.headerChunks = st.headerChunks) ∧
    (v1SilenceTimeoutFire cfg now st).1.isInLoudnessEvent = false ∧
    (v1SilenceTimeoutFire cfg now st).1.isRecording = true ∧
    (v1SilenceTimeoutFire cfg now st).1.lastChunkTimestamp = now ∧
    (v1SilenceTimeoutFire cfg now st).1.audioStartPoint = st.audioStartPoint := by
  unfold v1SilenceTimeoutFire
  rw [if_pos hPending, if_pos (show ({ st with silenceTimeoutActive := false } :
    V1State).isRecording = true from hRec)]
  refine ⟨rfl, rfl, ?_, rfl, rfl, rfl, rfl⟩
  intro hcap
  unfold v1StartContinuousRecording v1StopRecording
  dsimp only
  rw [if_pos hcap]

/-- Witness for the amended C5 at the concrete c5State. -/
theorem c5_witness :
    (v1SilenceTimeoutFire defaultV1Config 1600 c5State).2 =
      v1SendCompleteBlob defaultV1Config { c5State with silenceTimeoutActive := false } ∧
    (v1SilenceTimeoutFire defaultV1Config 1600 c5State).1.audioChunks = [] ∧
    (c5State.hasCapturedHeaders = true →
      (v1SilenceTimeoutFire defaultV1Config 1600 c5State).1.headerChunks =
        c5State.headerChunks) ∧
    (v1SilenceTimeoutFire defaultV1Config 1600 c5State).1.isInLoudnessEvent = false ∧
    (v1SilenceTimeoutFire defaultV1Config 1600 c5State).1.isRecording = true ∧
    (v1SilenceTimeoutFire defaultV1Config 1600 c5State).1.lastChunkTimestamp = 1600 ∧
    (v1SilenceTimeoutFire defaultV1Config 1600 c5State).1.audioStartPoint =
      c5State.audioStartPoint :=
  c5_amended_silence_completion defaultV1Config 1600 c5State rfl rfl

/-- C7: once stop() returns (from an analyzing state), every session
field is back at its fresh-instance value, the volume interval and the
silence timeout are cleared so firing them is a no-op with no callback,
the untracked preview timer is a no-op thanks to the still-recording
guard, and a subsequent start() produces exactly the state a start() on
a fresh instance produces. -/
theorem c7_stop_resets_everything (st : V1State) (h : st.isAnalyzing = true) :
    ((v1Stop st).isAnalyzing = false ∧ (v1Stop st).isRecording = false ∧
     (v1Stop st).isInLoudnessEvent = false ∧ (v1Stop st).audioStartPoint = 0 ∧
     (v1Stop st).audioChunks = [] ∧ (v1Stop st).headerChunks = [] ∧
     (v1Stop st).lastChunkTimestamp = 0 ∧ (v1Stop st).hasCapturedHeaders = false ∧
     (v1Stop st).lastLoudnessTime = 0 ∧
     (v1Stop st).volumeIntervalActive = false ∧
     (v1Stop st).silenceTimeoutActive = false) ∧
    (∀ (cfg : V1Config) (now : Int) (L : ℚ),
      v1VolumeTick cfg now L (v1Stop st) = (v1Stop st, none)) ∧
    (∀ cfg : V1Config, v1InitialBlobTimerFire cfg (v1Stop st) = none) ∧
    (∀ (cfg : V1Config) (now : Int),
      v1SilenceTimeoutFire cfg now (v1Stop st) = (v1Stop st, none)) ∧
    (∀ now : Int, v1Start now (v1Stop st) = v1Start now v1InitialState) := by
  have hstop : v1Stop st = { st with
      volumeIntervalActive := false,
      silenceTimeoutActive := false,
      isRecording := false,
      isAnalyzing := false,
      isInLoudnessEvent := false,
      audioStartPoint := 0,
      audioChunks := [],
      headerChunks := [],
      lastChunkTimestamp := 0,
      hasCapturedHeaders := false,
      lastLoudnessTime := 0 } := by
    unfold v1Stop
    rw [if_neg (by simp [h])]
  rw [hstop]
  refine ⟨⟨rfl, rfl, rfl, rfl, rfl, rfl, rfl, rfl, rfl, rfl, rfl⟩, ?_, ?_, ?_, ?_⟩
  · intro cfg now L
    unfold v1VolumeTick
    rw [if_pos]
    rfl
  · intro cfg
    unfold v1InitialBlobTimerFire
    rw [if_neg (by simp)]
  · intro cfg now
    unfold v1SilenceTimeoutFire
    rw [if_neg (by simp)]
  · intro now
    unfold v1Start
    rw [if_neg (by simp), if_neg (by simp [v1InitialState])]
    unfold v1StartContinuousRecording
    dsimp only
    rw [if_neg (by simp), if_neg (by simp [v1InitialState])]
    rfl

/-- Witness for C7 at the concrete active state c5State. -/
theorem c7_witness :
    ((v1Stop c5State).isAnalyzing = false ∧ (v1Stop c5State).isRecording = false ∧
     (v1Stop c5State).isInLoudnessEvent = false ∧ (v1Stop c5State).audioStartPoint = 0 ∧
     (v1Stop c5State).audioChunks = [] ∧ (v1Stop c5State).headerChunks = [] ∧
     (v1Stop c5State).lastChunkTimestamp = 0 ∧
     (v1Stop c5State).hasCapturedHeaders = false ∧
     (v1Stop c5State).lastLoudnessTime = 0 ∧
     (v1Stop c5State).volumeIntervalActive = false ∧
     (v1Stop c5State).silenceTimeoutActive = false) ∧
    (∀ (cfg : V1Config) (now : Int) (L : ℚ),
      v1VolumeTick cfg now L (v1Stop c5State) = (v1Stop c5State, none)) ∧
    (∀ cfg : V1Config, v1InitialBlobTimerFire cfg (v1Stop c5State) = none) ∧
    (∀ (cfg : V1Config) (now : Int),
      v1SilenceTimeoutFire cfg now (v1Stop c5State) = (v1Stop c5State, none)) ∧
    (∀ now : Int, v1Start now (v1Stop c5State) = v1Start now v1InitialState) :=
  c7_stop_resets_everything c5State rfl
